import Mathlib

/-!
# LibrePilot line follower: sensor driver, sensor module and follower task

A shallow embedding of

* `flight/pios/stm32f4xx/pios_linesensor.c` (QTR-8RC reflectance sensor driver),
* `flight/modules/LineSensor/linesensormodule.c` (periodic calibration and
  normalisation, `onTimer`),
* `flight/modules/LineFollower/linefollowermodule.c` (arming state machine and
  PID loop, `lineFollowerTask`),

followed by theorems about the embedded functions.

Conventions.  `uint16_t`/`uint32_t` values are natural numbers, with an explicit
`% 2^16` / `% 2^32` wherever the C code truncates.  `float` values are IEEE 754
binary32 numbers (`F32`), every operation rounded to nearest, ties to even; the
one exception is the start delay of the follower, which the code reads only
under the cast `(uint32_t)` and which is kept as its exact value.  Whatever a
peripheral or an external library returns during a call is an argument of the
embedded function.
-/

namespace LineFollower

/-! ## IEEE 754 binary32 arithmetic (the C type `float` on the STM32F4)

The Cortex-M4 FPU computes in single precision with subnormals, rounding to
nearest with ties to even.  Every finite binary32 number is an integer multiple
of `2^-149` of magnitude below `2^128`, so a finite value is held as a sign and
a count of units of `2^-149`.  Each C operator is one correctly rounded
operation (no fused multiply-add). -/

/-- A binary32 value: `fin neg n` is `(-1)^neg * n * 2^-149`, `inf neg` is the
infinity of that sign, `nan` any NaN.  The binary32 numbers are the `fin neg n`
with `n` of at most 24 significant bits and below `2^277`; the operations below
return such values on such arguments. -/
inductive F32 where
  | fin (neg : Bool) (n : Nat)
  | inf (neg : Bool)
  | nan
  deriving DecidableEq, Repr

namespace F32

/-- One step of the binary logarithm: shift by `k` when the result stays
non-zero, counting the bits shifted out. -/
def ilog2Step (k : Nat) (p : Nat × Nat) : Nat × Nat :=
  if p.1 >>> k = 0 then p else (p.1 >>> k, p.2 + k)

/-- Position of the leading bit of `x` (for `x` below `2^1024`; 0 for 0). -/
def ilog2 (x : Nat) : Nat :=
  ([512, 256, 128, 64, 32, 16, 8, 4, 2, 1].foldl (fun p k => ilog2Step k p) (x, 0)).2

/-- The signed count of units of a finite value. -/
def signed (neg : Bool) (n : Nat) : Int := if neg then -(n : Int) else (n : Int)

/-- The magnitude `num / den` (in units of `2^-149`) rounded to nearest, ties to
even, on the grid of binary32: 24 significant bits, and never finer than one
unit (the subnormal range). -/
def roundUnits (num den : Nat) : Nat :=
  let shift := ilog2 (num / den) - 23
  let d := den <<< shift
  let q := num / d
  let r := num % d
  let q1 := if 2 * r < d then q else if d < 2 * r then q + 1 else if q % 2 = 0 then q else q + 1
  q1 <<< shift

/-- The binary32 value nearest to `(-1)^neg * num / den` units: an infinity when
the rounded magnitude reaches `2^128` (that is `2^277` units). -/
def round (neg : Bool) (num den : Nat) : F32 :=
  if (roundUnits num den) >>> 277 = 0 then fin neg (roundUnits num den) else inf neg

/-- Conversion of an unsigned integer to `float`, and the value of an integer
literal. -/
def ofNat (k : Nat) : F32 :=
  if k >>> 128 = 0 then round false (k <<< 149) 1 else inf false

/-- Unary minus. -/
def neg : F32 → F32
  | fin a n => fin (!a) n
  | inf a => inf (!a)
  | nan => nan

/-- Addition: an exact zero sum of finite values is `+0` unless both are
negative; opposite infinities give a NaN. -/
def add : F32 → F32 → F32
  | nan, _ => nan
  | _, nan => nan
  | inf a, inf b => if a = b then inf a else nan
  | inf a, fin _ _ => inf a
  | fin _ _, inf b => inf b
  | fin a n, fin b m =>
    if signed a n + signed b m = 0 then fin (a && b) 0
    else round (decide (signed a n + signed b m < 0)) (signed a n + signed b m).natAbs 1

/-- Subtraction. -/
def sub (x y : F32) : F32 := add x (neg y)

/-- Multiplication: zero times an infinity is a NaN. -/
def mul : F32 → F32 → F32
  | nan, _ => nan
  | _, nan => nan
  | inf a, inf b => inf (xor a b)
  | inf a, fin b m => if m = 0 then nan else inf (xor a b)
  | fin a n, inf b => if n = 0 then nan else inf (xor a b)
  | fin a n, fin b m => round (xor a b) (n * m) (1 <<< 149)

/-- Division: a non-zero finite value over zero is an infinity, `0 / 0` and
`inf / inf` are NaN. -/
def div : F32 → F32 → F32
  | nan, _ => nan
  | _, nan => nan
  | inf _, inf _ => nan
  | inf a, fin b _ => inf (xor a b)
  | fin a _, inf b => fin (xor a b) 0
  | fin a n, fin b m =>
    if m = 0 then (if n = 0 then nan else inf (xor a b))
    else round (xor a b) (n <<< 149) m

/-- The C comparison `x < y`: false whenever an operand is a NaN. -/
def lt : F32 → F32 → Bool
  | nan, _ => false
  | _, nan => false
  | inf a, inf b => a && !b
  | inf a, fin _ _ => a
  | fin _ _, inf b => !b
  | fin a n, fin b m => decide (signed a n < signed b m)

/-- The C comparison `x <= y`: false whenever an operand is a NaN. -/
def le : F32 → F32 → Bool
  | nan, _ => false
  | _, nan => false
  | inf a, inf b => a || !b
  | inf a, fin _ _ => a
  | fin _ _, inf b => !b
  | fin a n, fin b m => decide (signed a n ≤ signed b m)

/-- A finite value (neither an infinity nor a NaN). -/
def isFinite : F32 → Bool
  | fin _ _ => true
  | _ => false

instance : OfNat F32 k := ⟨ofNat k⟩

instance : Add F32 := ⟨add⟩

instance : Sub F32 := ⟨sub⟩

instance : Mul F32 := ⟨mul⟩

instance : Div F32 := ⟨div⟩

instance : Neg F32 := ⟨neg⟩

instance : LT F32 := ⟨fun x y => lt x y = true⟩

instance : LE F32 := ⟨fun x y => le x y = true⟩

instance (x y : F32) : Decidable (x < y) := inferInstanceAs (Decidable (lt x y = true))

instance (x y : F32) : Decidable (x ≤ y) := inferInstanceAs (Decidable (le x y = true))

end F32

/-! ## The sensor driver (`pios_linesensor.c`, `pios_linesensor.h`) -/

/-- Source `#define NUM_SENSOR 6`. -/
abbrev NUM_SENSOR : Nat := 6

/-- Source `enum pios_linesensor_fsm`. -/
inductive pios_linesensor_fsm where
  | PIOS_LINESENSOR_START
  | PIOS_LINESENSOR_BLANK
  | PIOS_LINESENSOR_ACQ_TIMING
  | PIOS_LINESENSOR_END
  deriving DecidableEq, Repr

open pios_linesensor_fsm

/-- Source `PIOS_LINESENSOR_DEV_MAGIC = 0x114e5e45`. -/
def PIOS_LINESENSOR_DEV_MAGIC : Nat := 0x114e5e45

/-- Level of a digital line (`BitAction` of the peripheral library). -/
inductive BitAction where
  | Bit_RESET
  | Bit_SET
  deriving DecidableEq, Repr

open BitAction

/-- The struct `pios_linesensor_dev_t` (the `cfg` pointer, which only names the
pins and the timer, is left out). -/
structure pios_linesensor_dev_t where
  magic : Nat
  timings : Fin NUM_SENSOR → Nat
  reads : Fin NUM_SENSOR → Nat
  status : Fin NUM_SENSOR → Bool
  fsm_status : pios_linesensor_fsm
  tim_id : Nat

/-- What the peripherals answer during one driver call: `pin i` is the result of
`GPIO_ReadInputDataBit` for line `i`, `counter i` the result of the
`TIM_GetCounter` call made in loop iteration `i` (the timer is free running, so
the six reads of one call need not agree). -/
structure Hw where
  pin : Fin NUM_SENSOR → BitAction
  counter : Fin NUM_SENSOR → Nat

/-- Conversion of an integer to `uint16_t`. -/
def toU16 (x : Int) : Nat := (x % 65536).toNat

/-- The value range of the `uint16_t timings[]` field. -/
def timingsInRange (d : pios_linesensor_dev_t) : Prop :=
  ∀ i : Fin NUM_SENSOR, d.timings i < 65536

instance (d : pios_linesensor_dev_t) : Decidable (timingsInRange d) := by
  unfold timingsInRange; infer_instance

/-- Source `linesensor_validate`: the device pointer is not `NULL` and carries the magic. -/
def linesensor_validate (linesensor_dev : Option pios_linesensor_dev_t) : Bool :=
  match linesensor_dev with
  | none => false
  | some d => d.magic == PIOS_LINESENSOR_DEV_MAGIC

/-- One iteration of the loop of `setOutputs`: the GPIO configuration calls act
on the pins only; for `!blank` the channel is reset and its baseline taken. -/
def setOutputsBody (blank : Bool) (hw : Hw) (d : pios_linesensor_dev_t)
    (i : Fin NUM_SENSOR) : pios_linesensor_dev_t :=
  if !blank then
    { d with
      status := Function.update d.status i false
      timings := Function.update d.timings i (hw.counter i % 65536) }
  else d

/-- Source `setOutputs(blank)`. -/
def setOutputs (blank : Bool) (hw : Hw) (d : pios_linesensor_dev_t) :
    pios_linesensor_dev_t :=
  (List.finRange NUM_SENSOR).foldl (setOutputsBody blank hw) d

/-- Source `PIOS_Linesensor_setup`. -/
def PIOS_Linesensor_setup (hw : Hw) (d : pios_linesensor_dev_t) :
    pios_linesensor_dev_t :=
  setOutputs true hw { d with fsm_status := PIOS_LINESENSOR_BLANK }

/-- Source `PIOS_Linesensor_start`. -/
def PIOS_Linesensor_start (hw : Hw) (d : pios_linesensor_dev_t) :
    pios_linesensor_dev_t :=
  setOutputs false hw { d with fsm_status := PIOS_LINESENSOR_ACQ_TIMING }

/-- Source `PIOS_Linesensor_Init`: `PIOS_Assert(cfg)` fails on a missing configuration;
otherwise the zeroed device gets its state and magic, `setOutputs(false)` runs
and `0` is returned. -/
def PIOS_Linesensor_Init (cfg : Bool) (hw : Hw) :
    Option (pios_linesensor_dev_t × Int) :=
  if cfg then
    some (setOutputs false hw
      { magic := PIOS_LINESENSOR_DEV_MAGIC
        timings := fun _ => 0
        reads := fun _ => 0
        status := fun _ => false
        fsm_status := PIOS_LINESENSOR_START
        tim_id := 0 }, 0)
  else none

/-- One iteration of the loop of `PIOS_Linesensor_read`. -/
def readBody (d : pios_linesensor_dev_t) (readout : Fin NUM_SENSOR → Nat)
    (i : Fin NUM_SENSOR) : Fin NUM_SENSOR → Nat :=
  Function.update readout i ((if d.status i then d.timings i else 0xFFFF) % 65536)

/-- Source `PIOS_Linesensor_read(readout)`: the filled buffer and the device after
`PIOS_Linesensor_setup()`. -/
def PIOS_Linesensor_read (hw : Hw) (readout : Fin NUM_SENSOR → Nat)
    (d : pios_linesensor_dev_t) : (Fin NUM_SENSOR → Nat) × pios_linesensor_dev_t :=
  ((List.finRange NUM_SENSOR).foldl (readBody d) readout, PIOS_Linesensor_setup hw d)

/-- One iteration of the loop of `PIOS_Linesensor_EXT_Int`. -/
def extIntBody (hw : Hw) (d : pios_linesensor_dev_t) (i : Fin NUM_SENSOR) :
    pios_linesensor_dev_t :=
  if !d.status i then
    if hw.pin i = Bit_RESET then
      { d with
        timings := Function.update d.timings i
          (toU16 ((hw.counter i : Int) - (d.timings i : Int)))
        status := Function.update d.status i true }
    else d
  else d

/-- Source `PIOS_Linesensor_EXT_Int`, on the global device pointer `dev`. -/
def PIOS_Linesensor_EXT_Int (hw : Hw) (dev : Option pios_linesensor_dev_t) :
    Option pios_linesensor_dev_t × Bool :=
  if !linesensor_validate dev then (dev, false)
  else
    match dev with
    | none => (dev, false)
    | some d =>
      if d.fsm_status = PIOS_LINESENSOR_ACQ_TIMING then
        (some ((List.finRange NUM_SENSOR).foldl (extIntBody hw) d), false)
      else (some d, false)

/-- A finite sequence of edge interrupts, each with its own peripheral answers. -/
def extIntSeq (hws : List Hw) (dev : Option pios_linesensor_dev_t) :
    Option pios_linesensor_dev_t :=
  hws.foldl (fun dv hw => (PIOS_Linesensor_EXT_Int hw dv).1) dev

/-- A device in the measuring phase with channel 1 captured (sample state). -/
def devMeasuring : pios_linesensor_dev_t :=
  { magic := PIOS_LINESENSOR_DEV_MAGIC
    timings := fun i => if i = 1 then 777 else 65000
    reads := fun _ => 0
    status := fun i => decide (i = 1)
    fsm_status := PIOS_LINESENSOR_ACQ_TIMING
    tim_id := 0 }

/-- Peripheral answers with lines 0 and 1 low and the counter at 200 (sample). -/
def hwLow01 : Hw :=
  { pin := fun i => if i = 0 ∨ i = 1 then Bit_RESET else Bit_SET
    counter := fun _ => 200 }

/-- Peripheral answers with every line high and the counter at 65000 (sample). -/
def hwHigh : Hw :=
  { pin := fun _ => Bit_SET
    counter := fun _ => 65000 }

/-! ## The sensor module (`linesensormodule.c`) -/

/-- Modelled from the spec: the option type of the `CalibrationMode` field; the
generated header `linesensorsettings.h` is not among the sources, the three
modes are the cases of the `switch` in `onTimer`. -/
inductive LineSensorSettingsCalibrationModeOptions where
  | LINESENSORSETTINGS_CALIBRATIONMODE_ENABLED
  | LINESENSORSETTINGS_CALIBRATIONMODE_MANUAL
  | LINESENSORSETTINGS_CALIBRATIONMODE_DONE
  deriving DecidableEq, Repr

open LineSensorSettingsCalibrationModeOptions

/-- Modelled from the spec: the option type of the `TrackStatus` field of the
generated header `linesensor.h`, which is not among the sources. -/
inductive LineSensorTrackStatusOptions where
  | LINESENSOR_TRACKSTATUS_OK
  | LINESENSOR_TRACKSTATUS_WARNING
  | LINESENSOR_TRACKSTATUS_NOTRACK
  deriving DecidableEq, Repr

open LineSensorTrackStatusOptions

/-- Modelled from the spec: the `TrackTreshold` sub-struct of the settings
object (generated header not among the sources), fields as `onTimer` reads them. -/
structure LineSensorSettingsTrackTresholdData where
  Warning : F32
  Lost : F32

/-- Modelled from the spec: the generated type `LineSensorSettingsData`
(header not among the sources), with the fields `onTimer` uses. -/
structure LineSensorSettingsData where
  CalibrationMode : LineSensorSettingsCalibrationModeOptions
  max : F32
  min : F32
  TrackTreshold : LineSensorSettingsTrackTresholdData
  range : F32
  offset : F32

/-- Modelled from the spec: the generated type `LineSensorData` (header not
among the sources), with the fields `onTimer` and `lineFollowerTask` use. -/
structure LineSensorData where
  rawsensors : Fin NUM_SENSOR → Nat
  max : F32
  min : F32
  sensors : Fin NUM_SENSOR → F32
  TrackStatus : LineSensorTrackStatusOptions
  value : F32

/-- The state `onTimer` works on: the file-scope `settings`, the function's
`static` variables and the driver's device. -/
structure SensorModuleState where
  settings : LineSensorSettingsData
  calibrationSaved : Bool
  sensorData : LineSensorData
  status : Nat
  max : F32
  min : F32
  dev : pios_linesensor_dev_t

/-- The driver entry points `onTimer` calls. -/
inductive DriverCall where
  | start
  | read
  deriving DecidableEq, Repr

/-- What one `onTimer` invocation does to the outside: driver calls made, values
written to the settings store (`LineSensorSettingsmaxSet`,
`LineSensorSettingsminSet`) and the frame given to `LineSensorSet`. -/
structure SensorModuleEffects where
  calls : List DriverCall
  maxSet : Option F32
  minSet : Option F32
  published : Option LineSensorData

/-- Source `settingscb`: reload the file-scope `settings` from the settings store. -/
def settingscb (store : LineSensorSettingsData) (s : SensorModuleState) :
    SensorModuleState :=
  { s with settings := store }

/-- One iteration of the sweep of the `ENABLED` case on the pair `(max, min)`.
The `uint16_t` reading is converted to `float` in the comparisons and in the
assignments.  In the sentinel branch the source assigns `max` to the local
`value`, which is not read again. -/
def calibrateBody (rawsensors : Fin NUM_SENSOR → Nat) (mm : F32 × F32)
    (i : Fin NUM_SENSOR) : F32 × F32 :=
  let value : Nat := rawsensors i
  if value ≠ 0xFFFF then
    (if F32.ofNat value > mm.1 then F32.ofNat value else mm.1,
     if F32.ofNat value < mm.2 then F32.ofNat value else mm.2)
  else mm

/-- The `switch (settings.CalibrationMode)` of `onTimer`: the new
`calibrationSaved`, `max`, `min` and the values written to the settings store.
The literals `0.999f` and `1.001f` are the binary32 numbers nearest to
`999 / 1000` and `1001 / 1000`. -/
def calibrate (settings : LineSensorSettingsData) (rawsensors : Fin NUM_SENSOR → Nat)
    (calibrationSaved : Bool) (max min : F32) : Bool × F32 × F32 × Option F32 × Option F32 :=
  match settings.CalibrationMode with
  | LINESENSORSETTINGS_CALIBRATIONMODE_ENABLED =>
    let mm := (List.finRange NUM_SENSOR).foldl (calibrateBody rawsensors) (max, min)
    (false, (999 / 1000) * mm.1, (1001 / 1000) * mm.2, none, none)
  | LINESENSORSETTINGS_CALIBRATIONMODE_MANUAL =>
    (calibrationSaved, settings.max, settings.min, none, none)
  | LINESENSORSETTINGS_CALIBRATIONMODE_DONE =>
    if !calibrationSaved then (true, max, min, some max, some min)
    else (calibrationSaved, max, min, none, none)

/-- One iteration of the normalisation loop on `(sensors, n1, n2)`:
`val = ((float)rawsensors[i] - min) * invrange`, `n1 += val * (float)i`,
`n2 += val`. -/
def normalizeBody (rawsensors : Fin NUM_SENSOR → Nat) (min invrange : F32)
    (acc : (Fin NUM_SENSOR → F32) × F32 × F32) (i : Fin NUM_SENSOR) :
    (Fin NUM_SENSOR → F32) × F32 × F32 :=
  let val := (F32.ofNat (rawsensors i) - min) * invrange
  (Function.update acc.1 i val, acc.2.1 + val * F32.ofNat (i : Nat), acc.2.2 + val)

/-- The `if`/`else if`/`else` chain that sets `sensorData.TrackStatus`. -/
def trackStatus (n2 Warning Lost : F32) : LineSensorTrackStatusOptions :=
  if n2 > Warning then LINESENSOR_TRACKSTATUS_OK
  else if n2 > Lost then LINESENSOR_TRACKSTATUS_WARNING
  else LINESENSOR_TRACKSTATUS_NOTRACK

/-- The `default:` branch of `onTimer` (the processing step): readout,
calibration, normalisation, classification, position; the published frame is the
`sensorData` of the returned state.  Nothing guards the two divisions
`1.0f / (max - min)` and `n1 / n2`. -/
def onTimerProcess (hw : Hw) (s : SensorModuleState) :
    SensorModuleState × Option F32 × Option F32 :=
  let r := PIOS_Linesensor_read hw s.sensorData.rawsensors s.dev
  let c := calibrate s.settings r.1 s.calibrationSaved s.max s.min
  let max := c.2.1
  let min := c.2.2.1
  let invrange : F32 := 1 / (max - min)
  let acc := (List.finRange NUM_SENSOR).foldl (normalizeBody r.1 min invrange)
    (s.sensorData.sensors, 0, 0)
  let n1 := acc.2.1
  let n2 := acc.2.2
  ({ s with
      calibrationSaved := c.1
      max := max
      min := min
      dev := r.2
      status := 0
      sensorData :=
        { rawsensors := r.1
          max := max
          min := min
          sensors := acc.1
          TrackStatus := trackStatus n2 s.settings.TrackTreshold.Warning
            s.settings.TrackTreshold.Lost
          value := (n1 / n2 - 5 / 2) * s.settings.range + s.settings.offset } },
   c.2.2.2.1, c.2.2.2.2)

/-- Source `onTimer`: `case 0` starts an acquisition and increments the `uint8_t`
step counter, every other value runs the processing step and returns. -/
def onTimer (hw : Hw) (s : SensorModuleState) : SensorModuleState × SensorModuleEffects :=
  match s.status with
  | 0 =>
    ({ s with dev := PIOS_Linesensor_start hw s.dev, status := (s.status + 1) % 256 },
     { calls := [DriverCall.start], maxSet := none, minSet := none, published := none })
  | _ =>
    let p := onTimerProcess hw s
    (p.1, { calls := [DriverCall.read], maxSet := p.2.1, minSet := p.2.2,
            published := some p.1.sensorData })

/-- The module state at start-up: zeroed statics (`track0` is the track status
option numbered 0), `max = 1`, `min = 0xffff`. -/
def sensorModuleInit (settings : LineSensorSettingsData) (dev : pios_linesensor_dev_t)
    (track0 : LineSensorTrackStatusOptions) : SensorModuleState :=
  { settings := settings
    calibrationSaved := false
    sensorData :=
      { rawsensors := fun _ => 0
        max := 0
        min := 0
        sensors := fun _ => 0
        TrackStatus := track0
        value := 0 }
    status := 0
    max := 1
    min := 0xffff
    dev := dev }

/-- A device whose six channels are all captured with the given timings (sample). -/
def devCaptured (t : Fin NUM_SENSOR → Nat) : pios_linesensor_dev_t :=
  { magic := PIOS_LINESENSOR_DEV_MAGIC
    timings := t
    reads := fun _ => 0
    status := fun _ => true
    fsm_status := PIOS_LINESENSOR_ACQ_TIMING
    tim_id := 0 }

/-- Settings in `MANUAL` mode with the given bounds, thresholds 2.0 and 0.5,
range 1 and offset 0 (sample). -/
def settingsManual (max min : F32) : LineSensorSettingsData :=
  { CalibrationMode := LINESENSORSETTINGS_CALIBRATIONMODE_MANUAL
    max := max
    min := min
    TrackTreshold := { Warning := 2, Lost := 1 / 2 }
    range := 1
    offset := 0 }

/-- A module state about to run the processing step in `MANUAL` mode on the
given captured timings (sample). -/
def moduleManual (max min : F32) (t : Fin NUM_SENSOR → Nat) : SensorModuleState :=
  { sensorModuleInit (settingsManual max min) (devCaptured t)
      LINESENSOR_TRACKSTATUS_NOTRACK with status := 1 }

/-- The frame handed to `LineSensorSet` by the processing step. -/
def publishedFrame (hw : Hw) (s : SensorModuleState) : LineSensorData :=
  (onTimerProcess hw s).1.sensorData

/-- Total energy of a frame: its normalised readings added up in `float`, from
0 and in channel order, as the loop of `onTimer` accumulates `n2`. -/
def frameN2 (f : LineSensorData) : F32 :=
  (List.finRange NUM_SENSOR).foldl (fun a i => a + f.sensors i) 0

/-- First moment of a frame: its normalised readings times the channel index,
added up in `float`, from 0 and in channel order, as the loop of `onTimer`
accumulates `n1`. -/
def frameN1 (f : LineSensorData) : F32 :=
  (List.finRange NUM_SENSOR).foldl (fun a i => a + f.sensors i * F32.ofNat (i : Nat)) 0

/-- Consecutive processing steps, each run with the settings object in force at
that step (loaded by `settingscb`): the values each step writes to the settings
store. -/
def processWrites :
    List (Hw × LineSensorSettingsData) → SensorModuleState → List (Option F32 × Option F32)
  | [], _ => []
  | (hw, st) :: rest, s =>
    (onTimerProcess hw (settingscb st s)).2 ::
      processWrites rest (onTimerProcess hw (settingscb st s)).1

/-- Consecutive processing steps, each run with the settings object in force at
that step: the module state at the end. -/
def processRun (steps : List (Hw × LineSensorSettingsData)) (s : SensorModuleState) :
    SensorModuleState :=
  steps.foldl (fun st x => (onTimerProcess x.1 (settingscb x.2 st)).1) s

/-- What surrounds one invocation of `onTimer`: the edge interrupts served since
the previous invocation (each with its own peripheral answers), the settings
object in force at the invocation and the peripheral answers during it. -/
structure TimerTick where
  interrupts : List Hw
  settings : LineSensorSettingsData
  hw : Hw

/-- The module state on entry of an invocation of `onTimer`: the device as the
interrupts (`PIOS_Linesensor_EXT_Int`) left it, the settings as `settingscb`
loaded them. -/
def tickEntry (t : TimerTick) (s : SensorModuleState) : SensorModuleState :=
  settingscb t.settings
    { s with dev := (extIntSeq t.interrupts (some s.dev)).getD s.dev }

/-- Consecutive invocations of `onTimer`: what each invocation does to the
outside. -/
def onTimerSeq : List TimerTick → SensorModuleState → List SensorModuleEffects
  | [], _ => []
  | t :: rest, s =>
    (onTimer t.hw (tickEntry t s)).2 :: onTimerSeq rest (onTimer t.hw (tickEntry t s)).1

/-- Consecutive invocations of `onTimer`: the module state at the end. -/
def onTimerRun (ticks : List TimerTick) (s : SensorModuleState) : SensorModuleState :=
  ticks.foldl (fun st t => (onTimer t.hw (tickEntry t st)).1) s

/-- Settings in the given calibration mode with bounds 900 and 100, thresholds
2.0 and 0.5, range 1 and offset 0 (sample). -/
def settingsMode (mode : LineSensorSettingsCalibrationModeOptions) : LineSensorSettingsData :=
  { CalibrationMode := mode
    max := 900
    min := 100
    TrackTreshold := { Warning := 2, Lost := 1 / 2 }
    range := 1
    offset := 0 }

/-- A device whose channel 0 never discharged and whose other channels are
captured at 500 ticks (sample). -/
def devChannel0Missing : pios_linesensor_dev_t :=
  { magic := PIOS_LINESENSOR_DEV_MAGIC
    timings := fun _ => 500
    reads := fun _ => 0
    status := fun i => decide (i ≠ 0)
    fsm_status := PIOS_LINESENSOR_ACQ_TIMING
    tim_id := 0 }

/-- A module state about to run the processing step in `ENABLED` mode with
running bounds 1000 and 100 on the device with channel 0 missing (sample). -/
def moduleEnabled : SensorModuleState :=
  { sensorModuleInit (settingsMode LINESENSORSETTINGS_CALIBRATIONMODE_ENABLED)
      devChannel0Missing LINESENSOR_TRACKSTATUS_NOTRACK with
    status := 1, max := 1000, min := 100 }

/-- The module state at start-up on the device with all channels captured at
500 ticks (sample). -/
def moduleStart : SensorModuleState :=
  sensorModuleInit (settingsMode LINESENSORSETTINGS_CALIBRATIONMODE_DONE)
    (devCaptured (fun _ => 500)) LINESENSOR_TRACKSTATUS_NOTRACK

/-- Four invocations of `onTimer` in `MANUAL` mode with bounds 900 and 100; the
lines of channels 0 and 1 fall between the first and the second invocation
(sample). -/
def ticksSample : List TimerTick :=
  [{ interrupts := [], settings := settingsManual 900 100, hw := hwHigh },
   { interrupts := [hwLow01], settings := settingsManual 900 100, hw := hwHigh },
   { interrupts := [], settings := settingsManual 900 100, hw := hwHigh },
   { interrupts := [hwHigh], settings := settingsManual 900 100, hw := hwHigh }]

/-- Readings given as a list, channel 0 first (sample). -/
def rawList (l : List Nat) (i : Fin NUM_SENSOR) : Nat := l.getD i.val 0

/-- Modelled from the spec: the option type of `LineFollowerStatusData.Status`
(generated header `linefollowerstatus.h` is not among the sources). -/
inductive LineFollowerStatusStatusOptions where
  | LINEFOLLOWERSTATUS_STATUS_IDLE
  | LINEFOLLOWERSTATUS_STATUS_ARMING
  | LINEFOLLOWERSTATUS_STATUS_RUN
  deriving DecidableEq, Repr

open LineFollowerStatusStatusOptions

/-- Modelled from the spec: the option type of `LineFollowerControlData.Command`
(generated header `linefollowercontrol.h` is not among the sources); the four
commands are the cases of the `switch` in `lineFollowerTask`. -/
inductive LineFollowerControlCommandOptions where
  | LINEFOLLOWERCONTROL_COMMAND_IDLE
  | LINEFOLLOWERCONTROL_COMMAND_CALIBRATE
  | LINEFOLLOWERCONTROL_COMMAND_RUN
  | LINEFOLLOWERCONTROL_COMMAND_STOP
  deriving DecidableEq, Repr

open LineFollowerControlCommandOptions

/-- Modelled from the spec: the generated type `LineFollowerControlData`
(header not among the sources). -/
structure LineFollowerControlData where
  Command : LineFollowerControlCommandOptions

/-- Modelled from the spec: the generated type `LineFollowerStatusData`
(header not among the sources), with the fields the task writes. -/
structure LineFollowerStatusData where
  Status : LineFollowerStatusStatusOptions
  yawrate : F32
  throttle : F32
  dT : F32

/-- Modelled from the spec: the `LineSensorPID` sub-struct of the follower
settings (generated header not among the sources). -/
structure LineFollowerSettingsLineSensorPIDData where
  Kp : F32
  Ki : F32
  Kd : F32
  ILimit : F32

/-- Modelled from the spec: the generated type `LineFollowerSettingsData`
(header not among the sources); `StartDelay` is in seconds and may be
fractional: it is read only under the cast `(uint32_t)` and is held as the exact
value of the `float`. -/
structure LineFollowerSettingsData where
  LineSensorPID : LineFollowerSettingsLineSensorPIDData
  StartDelay : ℚ

/-- The functions of `<pid.h>` the task calls, on a controller state of type `P`
(the library is not among the sources and is taken as a parameter). -/
structure PidLib (P : Type) where
  pid_zero : P → P
  pid_configure : P → F32 → F32 → F32 → F32 → P
  pid_apply : P → F32 → F32 → P × F32

/-- What the outside answers during one iteration of the loop of
`lineFollowerTask`, each field named after the call it answers. -/
structure LoopEnv where
  LineFollowerSettingsGet : LineFollowerSettingsData
  xQueueReceive : Bool
  PIOS_DELTATIME_GetAverageSeconds : F32
  LineSensorGet : LineSensorData
  LineFollowerControlGet : LineFollowerControlData
  PIOS_DELAY_GetRaw : Nat
  PIOS_DELAY_GetuSSince : Nat → Nat

/-- The file-scope flags and the local variables of `lineFollowerTask`. -/
structure TaskState (P : Type) where
  controlupdated : Bool
  settingsupdated : Bool
  control : LineFollowerControlData
  status : LineFollowerStatusData
  settings : LineFollowerSettingsData
  sensor : LineSensorData
  armingTimer : Nat
  arming : Bool
  currentstatus : LineFollowerStatusStatusOptions
  linePid : P
  yawrate : F32
  throttle : F32
  dT : F32

/-- Source `lfcontrolcb`. -/
def lfcontrolcb {P : Type} (s : TaskState P) : TaskState P :=
  { s with controlupdated := true }

/-- Source `lfsettingscb`. -/
def lfsettingscb {P : Type} (s : TaskState P) : TaskState P :=
  { s with settingsupdated := true }

/-- The task state when the loop is entered: both flags were raised by
`LineFollowerModuleInitialize`; `control`, `status`, `settings`, `sensor` and
`dT` are uninitialised locals, whose contents are arguments here. -/
def taskInit {P : Type} (lib : PidLib P) (control : LineFollowerControlData)
    (status : LineFollowerStatusData) (settings : LineFollowerSettingsData)
    (sensor : LineSensorData) (linePid : P) (dT : F32) : TaskState P :=
  { controlupdated := true
    settingsupdated := true
    control := control
    status := status
    settings := settings
    sensor := sensor
    armingTimer := 0
    arming := false
    currentstatus := LINEFOLLOWERSTATUS_STATUS_IDLE
    linePid := lib.pid_zero linePid
    yawrate := 0
    throttle := 0
    dT := dT }

/-- The arming threshold `(uint32_t)settings.StartDelay * 1000000`: the cast
applies to `StartDelay` alone and truncates it, the product is taken in
`uint32_t`.  (For a delay below `-1` or from `2^32` on the C conversion is
undefined; the floor is taken here.) -/
def startDelayThreshold (StartDelay : ℚ) : Nat :=
  ((Int.toNat ⌊StartDelay⌋) % 2 ^ 32 * 1000000) % 2 ^ 32

/-- The block `if (settingsupdated) { ... }`. -/
def stepSettings {P : Type} (lib : PidLib P) (e : LoopEnv) (s : TaskState P) : TaskState P :=
  if s.settingsupdated then
    { s with
      settingsupdated := false
      settings := e.LineFollowerSettingsGet
      linePid := lib.pid_configure s.linePid
        e.LineFollowerSettingsGet.LineSensorPID.Kp
        e.LineFollowerSettingsGet.LineSensorPID.Ki
        e.LineFollowerSettingsGet.LineSensorPID.Kd
        e.LineFollowerSettingsGet.LineSensorPID.ILimit }
  else s

/-- The block `if (xQueueReceive(...) == pdTRUE) { ... }` followed by
`status.throttle = throttle`. -/
def stepFrame {P : Type} (lib : PidLib P) (e : LoopEnv) (s : TaskState P) : TaskState P :=
  let s1 : TaskState P :=
    if e.xQueueReceive then
      let dT := e.PIOS_DELTATIME_GetAverageSeconds
      let sensor := e.LineSensorGet
      let r := lib.pid_apply s.linePid (-sensor.value) dT
      { s with
        dT := dT
        sensor := sensor
        linePid := r.1
        yawrate := r.2
        status := { s.status with yawrate := r.2, dT := dT } }
    else s
  { s1 with status := { s1.status with throttle := s1.throttle } }

/-- The block `if (status.Status == RUN) { RateDesiredYawSet(&yawrate); }`: the
value written to the actuation sink, if any. -/
def stepActuate {P : Type} (s : TaskState P) : Option F32 :=
  if s.status.Status = LINEFOLLOWERSTATUS_STATUS_RUN then some s.yawrate else none

/-- The block `if (controlupdated) { ... switch (control.Command) ... }`. -/
def stepControl {P : Type} (e : LoopEnv) (s : TaskState P) : TaskState P :=
  if s.controlupdated then
    let s1 : TaskState P :=
      { s with controlupdated := false, control := e.LineFollowerControlGet }
    match s1.control.Command with
    | LINEFOLLOWERCONTROL_COMMAND_IDLE =>
      { s1 with status := { s1.status with Status := LINEFOLLOWERSTATUS_STATUS_IDLE } }
    | LINEFOLLOWERCONTROL_COMMAND_CALIBRATE => s1
    | LINEFOLLOWERCONTROL_COMMAND_RUN =>
      if s1.currentstatus ≠ LINEFOLLOWERSTATUS_STATUS_RUN then
        { s1 with
          arming := true
          armingTimer := e.PIOS_DELAY_GetRaw
          status := { s1.status with Status := LINEFOLLOWERSTATUS_STATUS_ARMING } }
      else s1
    | LINEFOLLOWERCONTROL_COMMAND_STOP =>
      { s1 with status := { s1.status with Status := LINEFOLLOWERSTATUS_STATUS_IDLE } }
  else s

/-- The block `if (arming) { if (PIOS_DELAY_GetuSSince(armingTimer) > ...) ... }`. -/
def stepArming {P : Type} (e : LoopEnv) (s : TaskState P) : TaskState P :=
  if s.arming then
    if e.PIOS_DELAY_GetuSSince s.armingTimer > startDelayThreshold s.settings.StartDelay then
      { s with
        arming := false
        status := { s.status with Status := LINEFOLLOWERSTATUS_STATUS_RUN } }
    else s
  else s

/-- One iteration of the `while (1)` loop of `lineFollowerTask`: the state after
it (whose `status` is what `LineFollowerStatusSet` publishes) and the value
written to `RateDesiredYawSet`, if any. -/
def lineFollowerTask {P : Type} (lib : PidLib P) (e : LoopEnv) (s : TaskState P) :
    TaskState P × Option F32 :=
  let s2 := stepFrame lib e (stepSettings lib e s)
  (stepArming e (stepControl e s2), stepActuate s2)

/-- The `Status` published by `LineFollowerStatusSet` at the end of an iteration. -/
def publishedStatus {P : Type} (lib : PidLib P) (e : LoopEnv) (s : TaskState P) :
    LineFollowerStatusStatusOptions :=
  (lineFollowerTask lib e s).1.status.Status

/-- Consecutive loop iterations, no callback in between: the `Status` published
by each. -/
def publishedStatuses {P : Type} (lib : PidLib P) :
    List LoopEnv → TaskState P → List LineFollowerStatusStatusOptions
  | [], _ => []
  | e :: es, s =>
    publishedStatus lib e s :: publishedStatuses lib es (lineFollowerTask lib e s).1

/-- Consecutive loop iterations, no callback in between: the final state. -/
def runTask {P : Type} (lib : PidLib P) (es : List LoopEnv) (s : TaskState P) : TaskState P :=
  es.foldl (fun st e => (lineFollowerTask lib e st).1) s

/-- A PID library on a one-point state that always answers `0` (sample). -/
def pidNone : PidLib Unit :=
  { pid_zero := fun p => p
    pid_configure := fun p _ _ _ _ => p
    pid_apply := fun p _ _ => (p, 0) }

/-- An all-zero sensor frame (sample). -/
def sensorZero : LineSensorData :=
  { rawsensors := fun _ => 0
    max := 0
    min := 0
    sensors := fun _ => 0
    TrackStatus := LINESENSOR_TRACKSTATUS_NOTRACK
    value := 0 }

/-- Follower settings with zero gains and the given start delay (sample). -/
def settingsDelay (delay : ℚ) : LineFollowerSettingsData :=
  { LineSensorPID := { Kp := 0, Ki := 0, Kd := 0, ILimit := 0 }
    StartDelay := delay }

/-- The answers of an iteration at clock value `now` (in microseconds) with no
new sensor frame, the given start delay in the settings object and the given
command in the control object (sample). -/
def envAt (delay : ℚ) (cmd : LineFollowerControlCommandOptions) (now : Nat) : LoopEnv :=
  { LineFollowerSettingsGet := settingsDelay delay
    xQueueReceive := false
    PIOS_DELTATIME_GetAverageSeconds := 0
    LineSensorGet := sensorZero
    LineFollowerControlGet := { Command := cmd }
    PIOS_DELAY_GetRaw := now
    PIOS_DELAY_GetuSSince := fun t => now - t }

/-- The task state on entry of the loop, with `Status` reading `IDLE` (sample). -/
def taskStart (delay : ℚ) : TaskState Unit :=
  taskInit pidNone { Command := LINEFOLLOWERCONTROL_COMMAND_IDLE }
    { Status := LINEFOLLOWERSTATUS_STATUS_IDLE, yawrate := 0, throttle := 0, dT := 0 }
    (settingsDelay delay) sensorZero () 0

/-- A PID library whose state is the running sum of the errors, which is also
its output (sample). -/
def pidSum : PidLib F32 :=
  { pid_zero := fun _ => 0
    pid_configure := fun p _ _ _ _ => p
    pid_apply := fun p err _ => (p + err, p + err) }

/-- The answers of an iteration in which a new sensor frame with the given
position arrives (sample). -/
def envFrame (value : F32) : LoopEnv :=
  { LineFollowerSettingsGet := settingsDelay 1
    xQueueReceive := true
    PIOS_DELTATIME_GetAverageSeconds := 1 / 500
    LineSensorGet := { sensorZero with value := value }
    LineFollowerControlGet := { Command := LINEFOLLOWERCONTROL_COMMAND_IDLE }
    PIOS_DELAY_GetRaw := 0
    PIOS_DELAY_GetuSSince := fun t => 0 - t }

/-- A task state with the given `Status`, no flag raised, no arming pending, the
PID state and the yaw rate at 0 (sample). -/
def taskQuiet (st : LineFollowerStatusStatusOptions) : TaskState F32 :=
  { controlupdated := false
    settingsupdated := false
    control := { Command := LINEFOLLOWERCONTROL_COMMAND_IDLE }
    status := { Status := st, yawrate := 0, throttle := 0, dT := 0 }
    settings := settingsDelay 1
    sensor := sensorZero
    armingTimer := 0
    arming := false
    currentstatus := LINEFOLLOWERSTATUS_STATUS_IDLE
    linePid := 0
    yawrate := 0
    throttle := 0
    dT := 0 }

/-! ## Theorems: the sensor driver -/

/-- The loops run over each of the six channels exactly once. -/
theorem finRange_nodup_all :
    (List.finRange NUM_SENSOR).Nodup ∧ ∀ i : Fin NUM_SENSOR, i ∈ List.finRange NUM_SENSOR :=
  ⟨List.nodup_finRange _, List.mem_finRange⟩

/-- Effect of one `PIOS_Linesensor_EXT_Int` loop iteration on the channels. -/
theorem extIntBody_spec (hw : Hw) (d : pios_linesensor_dev_t) (j : Fin NUM_SENSOR) :
    (extIntBody hw d j).magic = d.magic ∧
    (extIntBody hw d j).fsm_status = d.fsm_status ∧
    (extIntBody hw d j).reads = d.reads ∧
    (extIntBody hw d j).tim_id = d.tim_id ∧
    (∀ i, i ≠ j → (extIntBody hw d j).status i = d.status i ∧
      (extIntBody hw d j).timings i = d.timings i) ∧
    (extIntBody hw d j).status j =
      (if d.status j = false ∧ hw.pin j = Bit_RESET then true else d.status j) ∧
    (extIntBody hw d j).timings j =
      (if d.status j = false ∧ hw.pin j = Bit_RESET then
        toU16 ((hw.counter j : Int) - (d.timings j : Int)) else d.timings j) := by
  unfold extIntBody
  cases hs : d.status j <;> by_cases hp : hw.pin j = Bit_RESET <;> simp [hs, hp]
  intro i hi
  simp [Function.update_noteq hi]

/-- The loop of `PIOS_Linesensor_EXT_Int` over a duplicate-free list of channels. -/
theorem extInt_foldl_spec (hw : Hw) (l : List (Fin NUM_SENSOR)) :
    ∀ (d : pios_linesensor_dev_t), l.Nodup →
    (l.foldl (extIntBody hw) d).magic = d.magic ∧
    (l.foldl (extIntBody hw) d).fsm_status = d.fsm_status ∧
    (l.foldl (extIntBody hw) d).reads = d.reads ∧
    (l.foldl (extIntBody hw) d).tim_id = d.tim_id ∧
    ∀ i, (l.foldl (extIntBody hw) d).status i =
        (if i ∈ l ∧ d.status i = false ∧ hw.pin i = Bit_RESET then true else d.status i) ∧
      (l.foldl (extIntBody hw) d).timings i =
        (if i ∈ l ∧ d.status i = false ∧ hw.pin i = Bit_RESET then
          toU16 ((hw.counter i : Int) - (d.timings i : Int)) else d.timings i) := by
  induction l with
  | nil => intro d _; simp
  | cons j l ih =>
    intro d hnd
    have hj : j ∉ l := (List.nodup_cons.mp hnd).1
    obtain ⟨h1, h2, h3, h4, h5⟩ := ih (extIntBody hw d j) (List.nodup_cons.mp hnd).2
    obtain ⟨b1, b2, b3, b4, b5, b6, b7⟩ := extIntBody_spec hw d j
    simp only [List.foldl_cons]
    refine ⟨h1.trans b1, h2.trans b2, h3.trans b3, h4.trans b4, ?_⟩
    intro i
    by_cases hij : i = j
    · subst hij
      rw [(h5 i).1, (h5 i).2, b6, b7]
      simp [hj]
    · rw [(h5 i).1, (h5 i).2, (b5 i hij).1, (b5 i hij).2]
      simp [hij]

/-- The loop of `PIOS_Linesensor_read` over a list of channels. -/
theorem read_foldl_spec (d : pios_linesensor_dev_t) (l : List (Fin NUM_SENSOR)) :
    ∀ (readout : Fin NUM_SENSOR → Nat) (i : Fin NUM_SENSOR),
    l.foldl (readBody d) readout i =
      (if i ∈ l then (if d.status i then d.timings i else 0xFFFF) % 65536 else readout i) := by
  induction l with
  | nil => intro readout i; simp
  | cons j l ih =>
    intro readout i
    simp only [List.foldl_cons, ih, readBody, List.mem_cons]
    by_cases hl : i ∈ l
    · simp [hl]
    · by_cases hij : i = j
      · subst hij; simp [hl]
      · simp [hl, hij, Function.update_noteq hij]

/-- A single edge interrupt keeps the pointer valid, the magic and the phase, and
leaves every captured channel alone. -/
theorem extInt_keeps_captured (hw : Hw) (d : pios_linesensor_dev_t) :
    ∃ d', (PIOS_Linesensor_EXT_Int hw (some d)).1 = some d' ∧
      ∀ i, d.status i = true → d'.status i = true ∧ d'.timings i = d.timings i := by
  unfold PIOS_Linesensor_EXT_Int
  by_cases hv : linesensor_validate (some d) = true
  · by_cases hf : d.fsm_status = PIOS_LINESENSOR_ACQ_TIMING
    · refine ⟨(List.finRange NUM_SENSOR).foldl (extIntBody hw) d, by simp [hv, hf], ?_⟩
      intro i hi
      have h := (extInt_foldl_spec hw _ d finRange_nodup_all.1).2.2.2.2 i
      rw [h.1, h.2]
      simp [hi]
    · exact ⟨d, by simp [hv, hf], fun i hi => ⟨hi, rfl⟩⟩
  · exact ⟨d, by simp [hv], fun i hi => ⟨hi, rfl⟩⟩

/-- The loop of `setOutputs` over a list of channels. -/
theorem setOutputs_foldl_spec (blank : Bool) (hw : Hw) (l : List (Fin NUM_SENSOR)) :
    ∀ (d : pios_linesensor_dev_t),
    (l.foldl (setOutputsBody blank hw) d).magic = d.magic ∧
    (l.foldl (setOutputsBody blank hw) d).fsm_status = d.fsm_status ∧
    (l.foldl (setOutputsBody blank hw) d).reads = d.reads ∧
    (l.foldl (setOutputsBody blank hw) d).tim_id = d.tim_id ∧
    ∀ i, (l.foldl (setOutputsBody blank hw) d).status i =
        (if blank = false ∧ i ∈ l then false else d.status i) ∧
      (l.foldl (setOutputsBody blank hw) d).timings i =
        (if blank = false ∧ i ∈ l then hw.counter i % 65536 else d.timings i) := by
  induction l with
  | nil => intro d; simp
  | cons j l ih =>
    intro d
    obtain ⟨h1, h2, h3, h4, h5⟩ := ih (setOutputsBody blank hw d j)
    simp only [List.foldl_cons, List.mem_cons]
    cases blank
    · refine ⟨h1, h2, h3, h4, fun i => ?_⟩
      rw [(h5 i).1, (h5 i).2]
      by_cases hl : i ∈ l
      · simp [hl]
      · by_cases hij : i = j
        · subst hij; simp [hl, setOutputsBody]
        · simp [hl, hij, setOutputsBody, Function.update_noteq hij]
    · refine ⟨h1, h2, h3, h4, fun i => ?_⟩
      rw [(h5 i).1, (h5 i).2]
      simp [setOutputsBody]

/-- The `uint16_t` range of `timings[]` is kept by `setOutputs`. -/
theorem timingsInRange_setOutputs (blank : Bool) (hw : Hw) (d : pios_linesensor_dev_t)
    (h : timingsInRange d) : timingsInRange (setOutputs blank hw d) := by
  intro i
  rw [setOutputs, ((setOutputs_foldl_spec blank hw _ d).2.2.2.2 i).2]
  split
  · exact Nat.mod_lt _ (by norm_num)
  · exact h i

/-- The device left by `PIOS_Linesensor_Init` carries the magic and has its
timings in the `uint16_t` range. -/
theorem init_initialised (hw : Hw) :
    ∃ d, PIOS_Linesensor_Init true hw = some (d, 0) ∧
      d.magic = PIOS_LINESENSOR_DEV_MAGIC ∧ timingsInRange d := by
  refine ⟨_, rfl, ?_, ?_⟩
  · rw [setOutputs, (setOutputs_foldl_spec false hw _ _).1]
  · exact timingsInRange_setOutputs _ _ _ (fun _ => by norm_num)

/-- The `uint16_t` range of `timings[]` is kept by `PIOS_Linesensor_start`,
`PIOS_Linesensor_setup` and `PIOS_Linesensor_read`. -/
theorem timingsInRange_start_setup_read (hw : Hw) (readout : Fin NUM_SENSOR → Nat)
    (d : pios_linesensor_dev_t) (h : timingsInRange d) :
    timingsInRange (PIOS_Linesensor_start hw d) ∧
    timingsInRange (PIOS_Linesensor_setup hw d) ∧
    timingsInRange (PIOS_Linesensor_read hw readout d).2 :=
  ⟨timingsInRange_setOutputs _ _ _ h, timingsInRange_setOutputs _ _ _ h,
   timingsInRange_setOutputs true hw { d with fsm_status := PIOS_LINESENSOR_BLANK } h⟩

/-- The `uint16_t` range of `timings[]` and the magic are kept by
`PIOS_Linesensor_EXT_Int`. -/
theorem timingsInRange_extInt (hw : Hw) (d : pios_linesensor_dev_t)
    (h : timingsInRange d) :
    ∃ d', (PIOS_Linesensor_EXT_Int hw (some d)).1 = some d' ∧ d'.magic = d.magic ∧
      timingsInRange d' := by
  unfold PIOS_Linesensor_EXT_Int
  by_cases hv : linesensor_validate (some d) = true
  · by_cases hf : d.fsm_status = PIOS_LINESENSOR_ACQ_TIMING
    · obtain ⟨k1, _, _, _, k5⟩ := extInt_foldl_spec hw _ d finRange_nodup_all.1
      refine ⟨(List.finRange NUM_SENSOR).foldl (extIntBody hw) d, by simp [hv, hf], k1, ?_⟩
      intro i
      rw [(k5 i).2]
      split
      · have hlt : ((hw.counter i : Int) - (d.timings i : Int)) % 65536 < 65536 :=
          Int.emod_lt_of_pos _ (by norm_num)
        have hnn : 0 ≤ ((hw.counter i : Int) - (d.timings i : Int)) % 65536 :=
          Int.emod_nonneg _ (by norm_num)
        unfold toU16
        omega
      · exact h i
    · exact ⟨d, by simp [hv, hf], rfl, h⟩
  · exact ⟨d, by simp [hv], rfl, h⟩

/-- C1: `PIOS_Linesensor_read` writes, for every channel `i`, `timings[i]` when
`status[i]` (captured) is true and the sentinel `0xFFFF` when it is false, so a
channel whose flag is not set at the readout is reported as `0xFFFF` only. -/
theorem C1_read_timing_or_sentinel (hw : Hw) (readout : Fin NUM_SENSOR → Nat)
    (d : pios_linesensor_dev_t) (hr : timingsInRange d) (i : Fin NUM_SENSOR) :
    (d.status i = true → (PIOS_Linesensor_read hw readout d).1 i = d.timings i) ∧
    (d.status i = false → (PIOS_Linesensor_read hw readout d).1 i = 0xFFFF) := by
  have h := read_foldl_spec d (List.finRange NUM_SENSOR) readout i
  simp only [finRange_nodup_all.2 i, if_true] at h
  constructor
  · intro hs
    simp only [PIOS_Linesensor_read, h, hs, if_true]
    exact Nat.mod_eq_of_lt (hr i)
  · intro hs
    simp [PIOS_Linesensor_read, h, hs]

/-- Witness for C1 on the sample device, channel 1 (captured, timing 777). -/
theorem C1_read_timing_or_sentinel_witness :
    timingsInRange devMeasuring ∧
    ((devMeasuring.status 1 = true →
        (PIOS_Linesensor_read hwLow01 (fun _ => 0) devMeasuring).1 1 = devMeasuring.timings 1) ∧
      (devMeasuring.status 1 = false →
        (PIOS_Linesensor_read hwLow01 (fun _ => 0) devMeasuring).1 1 = 0xFFFF)) :=
  ⟨by decide, C1_read_timing_or_sentinel hwLow01 (fun _ => 0) devMeasuring (by decide) 1⟩

/-- C9: on an initialised device `PIOS_Linesensor_EXT_Int` returns `false` and
never changes the phase; in phase `ACQ_TIMING` every channel that is not yet
captured and whose pin reads low gets `timings[i] = (c - timings[i]) mod 2^16`
(`c` the counter read for that channel) and `status[i] = true`, every other
channel is unchanged; in any other phase no timing and no flag changes. -/
theorem C9_ext_int_effect (hw : Hw) (d : pios_linesensor_dev_t)
    (hm : d.magic = PIOS_LINESENSOR_DEV_MAGIC) :
    ∃ d', PIOS_Linesensor_EXT_Int hw (some d) = (some d', false) ∧
      d'.fsm_status = d.fsm_status ∧
      (d.fsm_status = PIOS_LINESENSOR_ACQ_TIMING → ∀ i,
        (d.status i = false ∧ hw.pin i = Bit_RESET →
          d'.timings i = (((hw.counter i : Int) - (d.timings i : Int)) % 2 ^ 16).toNat ∧
          d'.status i = true) ∧
        (¬ (d.status i = false ∧ hw.pin i = Bit_RESET) →
          d'.timings i = d.timings i ∧ d'.status i = d.status i)) ∧
      (d.fsm_status ≠ PIOS_LINESENSOR_ACQ_TIMING →
        d'.timings = d.timings ∧ d'.status = d.status) := by
  have hv : linesensor_validate (some d) = true := by simp [linesensor_validate, hm]
  by_cases hf : d.fsm_status = PIOS_LINESENSOR_ACQ_TIMING
  · obtain ⟨_, h2, _, _, h5⟩ := extInt_foldl_spec hw _ d finRange_nodup_all.1
    refine ⟨(List.finRange NUM_SENSOR).foldl (extIntBody hw) d,
      by simp [PIOS_Linesensor_EXT_Int, hv, hf], ?_, ?_, fun h => absurd hf h⟩
    · rw [h2]
    · intro _ i
      constructor
      · intro hc
        rw [(h5 i).1, (h5 i).2]
        simp [hc, finRange_nodup_all.2 i, toU16]
      · intro hc
        rw [(h5 i).1, (h5 i).2]
        have hc' : ¬ (i ∈ List.finRange NUM_SENSOR ∧ d.status i = false ∧
            hw.pin i = Bit_RESET) := fun h => hc h.2
        simp only [hc', if_false, and_self]
  · exact ⟨d, by simp [PIOS_Linesensor_EXT_Int, hv, hf], rfl, fun h => absurd h hf,
      fun _ => ⟨rfl, rfl⟩⟩

/-- Witness for C9 on the sample device with lines 0 and 1 low. -/
theorem C9_ext_int_effect_witness :
    devMeasuring.magic = PIOS_LINESENSOR_DEV_MAGIC ∧
    ∃ d', PIOS_Linesensor_EXT_Int hwLow01 (some devMeasuring) = (some d', false) ∧
      d'.fsm_status = devMeasuring.fsm_status ∧
      (devMeasuring.fsm_status = PIOS_LINESENSOR_ACQ_TIMING → ∀ i,
        (devMeasuring.status i = false ∧ hwLow01.pin i = Bit_RESET →
          d'.timings i =
            (((hwLow01.counter i : Int) - (devMeasuring.timings i : Int)) % 2 ^ 16).toNat ∧
          d'.status i = true) ∧
        (¬ (devMeasuring.status i = false ∧ hwLow01.pin i = Bit_RESET) →
          d'.timings i = devMeasuring.timings i ∧ d'.status i = devMeasuring.status i)) ∧
      (devMeasuring.fsm_status ≠ PIOS_LINESENSOR_ACQ_TIMING →
        d'.timings = devMeasuring.timings ∧ d'.status = devMeasuring.status) :=
  ⟨rfl, C9_ext_int_effect hwLow01 devMeasuring rfl⟩

/-- C10: once `status[i]` is true, any finite sequence of
`PIOS_Linesensor_EXT_Int` calls, whatever the counter values and pin levels,
leaves `status[i]` true and `timings[i]` as it was; hence a channel is captured
at most once between two calls of `PIOS_Linesensor_start`. -/
theorem C10_captured_channel_frozen (hws : List Hw) :
    ∀ (d : pios_linesensor_dev_t) (i : Fin NUM_SENSOR), d.status i = true →
    ∃ d', extIntSeq hws (some d) = some d' ∧
      d'.status i = true ∧ d'.timings i = d.timings i := by
  induction hws with
  | nil => intro d i hi; exact ⟨d, rfl, hi, rfl⟩
  | cons hw hws ih =>
    intro d i hi
    obtain ⟨d1, h1, h2⟩ := extInt_keeps_captured hw d
    obtain ⟨d2, h3, h4, h5⟩ := ih d1 i (h2 i hi).1
    refine ⟨d2, ?_, h4, h5.trans (h2 i hi).2⟩
    simp only [extIntSeq, List.foldl_cons, h1]
    exact h3

/-- Witness for C10: channel 1 of the sample device under two edge interrupts. -/
theorem C10_captured_channel_frozen_witness :
    devMeasuring.status 1 = true ∧
    ∃ d', extIntSeq [hwLow01, hwLow01] (some devMeasuring) = some d' ∧
      d'.status 1 = true ∧ d'.timings 1 = devMeasuring.timings 1 :=
  ⟨rfl, C10_captured_channel_frozen [hwLow01, hwLow01] devMeasuring 1 rfl⟩

/-- With `blank` set, `setOutputs` touches the pins only: the device is unchanged. -/
theorem setOutputs_true_spec (hw : Hw) (d : pios_linesensor_dev_t) :
    (setOutputs true hw d).magic = d.magic ∧
    (setOutputs true hw d).fsm_status = d.fsm_status ∧
    (setOutputs true hw d).status = d.status ∧
    (setOutputs true hw d).timings = d.timings := by
  obtain ⟨h1, h2, _, _, h5⟩ := setOutputs_foldl_spec true hw (List.finRange NUM_SENSOR) d
  refine ⟨h1, h2, funext fun i => ?_, funext fun i => ?_⟩
  · rw [setOutputs, (h5 i).1]; simp
  · rw [setOutputs, (h5 i).2]; simp

/-- With `blank` clear, `setOutputs` resets every channel and takes its baseline. -/
theorem setOutputs_false_spec (hw : Hw) (d : pios_linesensor_dev_t) :
    (setOutputs false hw d).magic = d.magic ∧
    (setOutputs false hw d).fsm_status = d.fsm_status ∧
    (∀ i, (setOutputs false hw d).status i = false) ∧
    (∀ i, (setOutputs false hw d).timings i = hw.counter i % 65536) := by
  obtain ⟨h1, h2, _, _, h5⟩ := setOutputs_foldl_spec false hw (List.finRange NUM_SENSOR) d
  refine ⟨h1, h2, fun i => ?_, fun i => ?_⟩
  · rw [setOutputs, (h5 i).1]; simp [finRange_nodup_all.2 i]
  · rw [setOutputs, (h5 i).2]; simp [finRange_nodup_all.2 i]

/-- The device after `PIOS_Linesensor_read`: phase `BLANK`, flags and timings kept. -/
theorem read_device_spec (hw : Hw) (readout : Fin NUM_SENSOR → Nat)
    (d : pios_linesensor_dev_t) :
    (PIOS_Linesensor_read hw readout d).2.magic = d.magic ∧
    (PIOS_Linesensor_read hw readout d).2.fsm_status = PIOS_LINESENSOR_BLANK ∧
    (PIOS_Linesensor_read hw readout d).2.status = d.status ∧
    (PIOS_Linesensor_read hw readout d).2.timings = d.timings := by
  obtain ⟨h1, h2, h3, h4⟩ :=
    setOutputs_true_spec hw { d with fsm_status := PIOS_LINESENSOR_BLANK }
  exact ⟨h1, h2, h3, h4⟩

/-- C11 (counterexample): on the sample device whose six channels are captured
at 500 ticks, a second `PIOS_Linesensor_read` with no start and no edge event in
between writes 500 for channel 0, not the sentinel `0xFFFF`. -/
theorem C11_second_read_counterexample :
    (PIOS_Linesensor_read hwLow01 (fun _ => 0)
      (PIOS_Linesensor_read hwLow01 (fun _ => 0) (devCaptured (fun _ => 500))).2).1 0 = 500 ∧
    (PIOS_Linesensor_read hwLow01 (fun _ => 0)
      (PIOS_Linesensor_read hwLow01 (fun _ => 0) (devCaptured (fun _ => 500))).2).1 0 ≠
      0xFFFF := by
  decide

/-- C11 (amended): `PIOS_Linesensor_read` leaves the device in phase `BLANK`
with every `status` flag and every `timings` entry as it was (the reset in
`setOutputs` is under `!blank`, so only `PIOS_Linesensor_start` re-arms); hence a
second read with no start and no edge event in between writes the same six
values as the first, the sentinel exactly for the channels that were not
captured. -/
theorem C11_second_read_repeats (hw1 hw2 : Hw) (readout1 readout2 : Fin NUM_SENSOR → Nat)
    (d : pios_linesensor_dev_t) :
    (PIOS_Linesensor_read hw1 readout1 d).2.fsm_status = PIOS_LINESENSOR_BLANK ∧
    (PIOS_Linesensor_read hw1 readout1 d).2.status = d.status ∧
    (PIOS_Linesensor_read hw1 readout1 d).2.timings = d.timings ∧
    (PIOS_Linesensor_read hw2 readout2 (PIOS_Linesensor_read hw1 readout1 d).2).1 =
      (PIOS_Linesensor_read hw1 readout1 d).1 ∧
    ∀ i, d.status i = false →
      (PIOS_Linesensor_read hw2 readout2 (PIOS_Linesensor_read hw1 readout1 d).2).1 i
        = 0xFFFF := by
  obtain ⟨_, h2, h3, h4⟩ := read_device_spec hw1 readout1 d
  have hsame : ∀ i,
      (PIOS_Linesensor_read hw2 readout2 (PIOS_Linesensor_read hw1 readout1 d).2).1 i =
        (if d.status i then d.timings i else 0xFFFF) % 65536 := by
    intro i
    have h := read_foldl_spec (PIOS_Linesensor_read hw1 readout1 d).2
      (List.finRange NUM_SENSOR) readout2 i
    simp only [finRange_nodup_all.2 i, if_true, h3, h4] at h
    simp only [PIOS_Linesensor_read] at h ⊢
    exact h
  have hfirst : ∀ i, (PIOS_Linesensor_read hw1 readout1 d).1 i =
      (if d.status i then d.timings i else 0xFFFF) % 65536 := by
    intro i
    have h := read_foldl_spec d (List.finRange NUM_SENSOR) readout1 i
    simp only [finRange_nodup_all.2 i, if_true] at h
    simp only [PIOS_Linesensor_read, h]
  refine ⟨h2, h3, h4, funext fun i => ?_, fun i hi => ?_⟩
  · rw [hsame i, hfirst i]
  · rw [hsame i, hi]; rfl

/-- Witness for C11 (amended): channel 0 of the sample measuring device is not
captured and reads as the sentinel in the second readout as well. -/
theorem C11_second_read_repeats_witness :
    devMeasuring.status 0 = false ∧
    (PIOS_Linesensor_read hwLow01 (fun _ => 0)
      (PIOS_Linesensor_read hwLow01 (fun _ => 0) devMeasuring).2).1 0 = 0xFFFF :=
  ⟨rfl, (C11_second_read_repeats hwLow01 hwLow01 (fun _ => 0) (fun _ => 0)
    devMeasuring).2.2.2.2 0 rfl⟩

/-- C12: whatever the phase before, `PIOS_Linesensor_start` leaves the phase at
`ACQ_TIMING`, every `status` flag false and every `timings` entry equal to the
counter value read for that channel during the call, converted to `uint16_t`
(so equal to the value read when the counter is a 16-bit one). -/
theorem C12_start_effect (hw : Hw) (d : pios_linesensor_dev_t) :
    (PIOS_Linesensor_start hw d).fsm_status = PIOS_LINESENSOR_ACQ_TIMING ∧
    (∀ i, (PIOS_Linesensor_start hw d).status i = false) ∧
    (∀ i, (PIOS_Linesensor_start hw d).timings i = hw.counter i % 2 ^ 16) ∧
    ((∀ i, hw.counter i < 2 ^ 16) →
      ∀ i, (PIOS_Linesensor_start hw d).timings i = hw.counter i) := by
  obtain ⟨_, h2, h3, h4⟩ :=
    setOutputs_false_spec hw { d with fsm_status := PIOS_LINESENSOR_ACQ_TIMING }
  refine ⟨h2, h3, h4, fun hc i => ?_⟩
  have := h4 i
  rw [PIOS_Linesensor_start, this]
  exact Nat.mod_eq_of_lt (hc i)

/-- Witness for C12: the sample device, started with the counter reading 200. -/
theorem C12_start_effect_witness :
    (∀ i, hwLow01.counter i < 2 ^ 16) ∧
    ∀ i, (PIOS_Linesensor_start hwLow01 devMeasuring).timings i = hwLow01.counter i :=
  ⟨by decide, (C12_start_effect hwLow01 devMeasuring).2.2.2 (by decide)⟩

/-! ## Theorems: binary32 arithmetic -/

/-- The comparison `<` of `float` is the function `F32.lt`. -/
theorem f32_lt_iff (x y : F32) : x < y ↔ F32.lt x y = true := Iff.rfl

/-- The comparison `<=` of `float` is the function `F32.le`. -/
theorem f32_le_iff (x y : F32) : x ≤ y ↔ F32.le x y = true := Iff.rfl

/-- No `float` is below itself. -/
theorem f32_lt_irrefl (x : F32) : ¬ x < x := by
  rw [f32_lt_iff]
  cases x with
  | fin a n => simp [F32.lt]
  | inf a => cases a <;> simp [F32.lt]
  | nan => simp [F32.lt]

/-- A NaN compares false on either side of `<`. -/
theorem f32_nan_not_lt (x : F32) : ¬ F32.nan < x ∧ ¬ x < F32.nan := by
  rw [f32_lt_iff, f32_lt_iff]
  cases x <;> simp [F32.lt]

/-- Strictly below implies below or equal. -/
theorem f32_le_of_lt (x y : F32) (h : x < y) : x ≤ y := by
  rw [f32_lt_iff] at h
  rw [f32_le_iff]
  rcases x with ⟨a, n⟩ | a | _ <;> rcases y with ⟨b, m⟩ | b | _ <;>
    simp_all [F32.lt, F32.le]
  exact le_of_lt h

/-- Below or equal excludes strictly above. -/
theorem f32_not_lt_of_le (x y : F32) (h : x ≤ y) : ¬ y < x := by
  rw [f32_le_iff] at h
  rw [f32_lt_iff]
  rcases x with ⟨a, n⟩ | a | _ <;> rcases y with ⟨b, m⟩ | b | _ <;>
    simp_all [F32.lt, F32.le]
  cases a <;> cases b <;> simp_all

/-- Two values that are not NaN are comparable. -/
theorem f32_le_of_not_lt (x y : F32) (hx : x ≠ F32.nan) (hy : y ≠ F32.nan) (h : ¬ x < y) :
    y ≤ x := by
  rw [f32_lt_iff] at h
  rw [f32_le_iff]
  rcases x with ⟨a, n⟩ | a | _ <;> rcases y with ⟨b, m⟩ | b | _ <;>
    simp_all [F32.lt, F32.le]
  cases a <;> cases b <;> simp_all

/-- A value that is not a NaN is below or equal to itself. -/
theorem f32_le_refl (x : F32) (hx : x ≠ F32.nan) : x ≤ x := by
  rw [f32_le_iff]
  cases x <;> simp_all [F32.le]

/-- The comparison `<=` is transitive. -/
theorem f32_le_trans (x y z : F32) (h1 : x ≤ y) (h2 : y ≤ z) : x ≤ z := by
  rw [f32_le_iff] at h1 h2 ⊢
  rcases x with ⟨a, n⟩ | a | _ <;> rcases y with ⟨b, m⟩ | b | _ <;>
    rcases z with ⟨c, k⟩ | c | _ <;> simp_all [F32.le]
  · exact le_trans h1 h2
  · cases a <;> cases b <;> cases c <;> simp_all

/-- Only values that are not NaN are below or equal to something. -/
theorem f32_le_ne_nan (x y : F32) (h : x ≤ y) : x ≠ F32.nan ∧ y ≠ F32.nan := by
  rw [f32_le_iff] at h
  cases x <;> cases y <;> simp_all [F32.le]

/-- Rounding keeps the sign and never yields a NaN. -/
theorem f32_round_cases (a : Bool) (num den : Nat) :
    F32.round a num den = F32.fin a (F32.roundUnits num den) ∨ F32.round a num den = F32.inf a := by
  unfold F32.round
  split
  · exact Or.inl rfl
  · exact Or.inr rfl

/-- The conversion of an integer is a non-negative finite value or `+inf`. -/
theorem f32_ofNat_cases (k : Nat) :
    (∃ n, F32.ofNat k = F32.fin false n) ∨ F32.ofNat k = F32.inf false := by
  unfold F32.ofNat
  split
  · rcases f32_round_cases false (k <<< 149) 1 with h | h
    · exact Or.inl ⟨_, h⟩
    · exact Or.inr h
  · exact Or.inr rfl

/-- The conversion of an integer is not a NaN. -/
theorem f32_ofNat_ne_nan (k : Nat) : F32.ofNat k ≠ F32.nan := by
  rcases f32_ofNat_cases k with ⟨n, h⟩ | h <;> rw [h] <;> simp

/-- The value of the literals `1` and `0`. -/
theorem f32_one_zero :
    (1 : F32) = F32.fin false (2 ^ 149) ∧ (0 : F32) = F32.fin false 0 ∧
    F32.ofNat 0 = F32.fin false 0 := by decide

/-- A NaN operand makes the sum a NaN. -/
theorem f32_add_nan (x : F32) : F32.nan + x = F32.nan ∧ x + F32.nan = F32.nan := by
  cases x <;> exact ⟨rfl, rfl⟩

/-- A NaN operand makes the difference a NaN. -/
theorem f32_sub_nan (x : F32) : F32.nan - x = F32.nan ∧ x - F32.nan = F32.nan := by
  cases x <;> exact ⟨rfl, rfl⟩

/-- A NaN operand makes the product a NaN. -/
theorem f32_mul_nan (x : F32) : F32.nan * x = F32.nan ∧ x * F32.nan = F32.nan := by
  cases x <;> exact ⟨rfl, rfl⟩

/-- A NaN operand makes the quotient a NaN. -/
theorem f32_div_nan (x : F32) : F32.nan / x = F32.nan ∧ x / F32.nan = F32.nan := by
  cases x <;> exact ⟨rfl, rfl⟩

/-- The difference of a value and itself is `+0`, or a NaN when the value is not
finite. -/
theorem f32_sub_self (x : F32) :
    (x.isFinite = true → x - x = F32.fin false 0) ∧
    (x.isFinite = false → x - x = F32.nan) := by
  rcases x with ⟨a, n⟩ | a | _
  · refine ⟨fun _ => ?_, fun h => by simp [F32.isFinite] at h⟩
    show F32.add (F32.fin a n) (F32.neg (F32.fin a n)) = F32.fin false 0
    have h0 : F32.signed a n + F32.signed (!a) n = 0 := by
      cases a <;> simp [F32.signed]
    simp only [F32.neg, F32.add, h0, if_true]
    cases a <;> rfl
  · refine ⟨fun h => by simp [F32.isFinite] at h, fun _ => ?_⟩
    cases a <;> rfl
  · exact ⟨fun h => by simp [F32.isFinite] at h, fun _ => rfl⟩

/-- The reciprocal `1.0f / d` of `+0` is `+inf`, that of a NaN is a NaN. -/
theorem f32_one_div_zero :
    (1 : F32) / F32.fin false 0 = F32.inf false ∧ (1 : F32) / F32.nan = F32.nan := by
  decide

/-- A product with a factor that is not finite is not finite. -/
theorem f32_mul_notFinite (x y : F32) (hy : y.isFinite = false) : (x * y).isFinite = false := by
  show (F32.mul x y).isFinite = false
  rcases x with ⟨a, n⟩ | a | _ <;> rcases y with ⟨b, m⟩ | b | _ <;>
    first
    | (exfalso; simp [F32.isFinite] at hy; done)
    | rfl
    | (simp only [F32.mul]; split_ifs <;> rfl)

/-- A value that is not finite times zero is a NaN. -/
theorem f32_notFinite_mul_zero (x : F32) (hx : x.isFinite = false) :
    x * F32.ofNat 0 = F32.nan := by
  rw [f32_one_zero.2.2]
  rcases x with ⟨a, n⟩ | a | _
  · simp [F32.isFinite] at hx
  · show F32.mul (F32.inf a) (F32.fin false 0) = F32.nan
    simp [F32.mul]
  · rfl

/-- A quotient by a zero is not finite. -/
theorem f32_div_zero_notFinite (x : F32) (b : Bool) : (x / F32.fin b 0).isFinite = false := by
  show (F32.div x (F32.fin b 0)).isFinite = false
  rcases x with ⟨a, n⟩ | a | _ <;>
    first
    | rfl
    | (simp only [F32.div]; split_ifs <;> rfl)

/-- A difference whose first operand is not finite is not finite. -/
theorem f32_notFinite_sub (x y : F32) (hx : x.isFinite = false) : (x - y).isFinite = false := by
  show (F32.add x (F32.neg y)).isFinite = false
  rcases x with ⟨a, n⟩ | a | _ <;> rcases y with ⟨b, m⟩ | b | _ <;>
    first
    | (exfalso; simp [F32.isFinite] at hx; done)
    | rfl
    | (simp only [F32.add, F32.neg]; split_ifs <;> rfl)

/-- A product whose first factor is not finite is not finite. -/
theorem f32_notFinite_mul (x y : F32) (hx : x.isFinite = false) : (x * y).isFinite = false := by
  show (F32.mul x y).isFinite = false
  rcases x with ⟨a, n⟩ | a | _ <;> rcases y with ⟨b, m⟩ | b | _ <;>
    first
    | (exfalso; simp [F32.isFinite] at hx; done)
    | rfl
    | (simp only [F32.mul]; split_ifs <;> rfl)

/-- A sum whose first operand is not finite is not finite. -/
theorem f32_notFinite_add (x y : F32) (hx : x.isFinite = false) : (x + y).isFinite = false := by
  show (F32.add x y).isFinite = false
  rcases x with ⟨a, n⟩ | a | _ <;> rcases y with ⟨b, m⟩ | b | _ <;>
    first
    | (exfalso; simp [F32.isFinite] at hx; done)
    | rfl
    | (simp only [F32.add]; split_ifs <;> rfl)

/-- Every entry of the buffer filled by `PIOS_Linesensor_read`. -/
theorem read_entry (hw : Hw) (readout : Fin NUM_SENSOR → Nat) (d : pios_linesensor_dev_t)
    (i : Fin NUM_SENSOR) :
    (PIOS_Linesensor_read hw readout d).1 i =
      (if d.status i then d.timings i else 0xFFFF) % 65536 := by
  have h := read_foldl_spec d (List.finRange NUM_SENSOR) readout i
  simp only [finRange_nodup_all.2 i, if_true] at h
  simp only [PIOS_Linesensor_read, h]

/-- The normalisation loop over a list of channels: the values stored, and the
two accumulators as left folds of `float` additions in the order of the list. -/
theorem normalize_foldl_spec (raw : Fin NUM_SENSOR → Nat) (mn inv : F32)
    (l : List (Fin NUM_SENSOR)) :
    ∀ (acc : (Fin NUM_SENSOR → F32) × F32 × F32),
    (∀ i, (l.foldl (normalizeBody raw mn inv) acc).1 i =
      (if i ∈ l then (F32.ofNat (raw i) - mn) * inv else acc.1 i)) ∧
    (l.foldl (normalizeBody raw mn inv) acc).2.1 =
      l.foldl (fun a i => a + (F32.ofNat (raw i) - mn) * inv * F32.ofNat (i : Nat)) acc.2.1 ∧
    (l.foldl (normalizeBody raw mn inv) acc).2.2 =
      l.foldl (fun a i => a + (F32.ofNat (raw i) - mn) * inv) acc.2.2 := by
  induction l with
  | nil => intro acc; simp
  | cons j l ih =>
    intro acc
    obtain ⟨h1, h2, h3⟩ := ih (normalizeBody raw mn inv acc j)
    simp only [List.foldl_cons, List.mem_cons]
    refine ⟨?_, ?_, ?_⟩
    · intro i
      rw [h1 i]
      by_cases hl : i ∈ l
      · simp [hl]
      · by_cases hij : i = j
        · subst hij; simp [hl, normalizeBody]
        · simp [hl, hij, normalizeBody, Function.update_noteq hij]
    · rw [h2]; rfl
    · rw [h3]; rfl

/-- The two sums of a frame written out over the six channels, in the order and
with the bracketing of the loop. -/
theorem frame_sums_six (f : LineSensorData) :
    frameN2 f = 0 + f.sensors 0 + f.sensors 1 + f.sensors 2 + f.sensors 3 + f.sensors 4 +
      f.sensors 5 ∧
    frameN1 f = 0 + f.sensors 0 * F32.ofNat 0 + f.sensors 1 * F32.ofNat 1 +
      f.sensors 2 * F32.ofNat 2 + f.sensors 3 * F32.ofNat 3 + f.sensors 4 * F32.ofNat 4 +
      f.sensors 5 * F32.ofNat 5 :=
  ⟨rfl, rfl⟩

/-- The frame published by the processing step, in terms of the readout, the
calibrated bounds and the `float` sums over the published normalised values. -/
theorem onTimerProcess_frame (hw : Hw) (s : SensorModuleState) :
    (onTimerProcess hw s).1.sensorData.rawsensors =
      (PIOS_Linesensor_read hw s.sensorData.rawsensors s.dev).1 ∧
    (onTimerProcess hw s).1.sensorData.max = (onTimerProcess hw s).1.max ∧
    (onTimerProcess hw s).1.sensorData.min = (onTimerProcess hw s).1.min ∧
    (∀ i, (onTimerProcess hw s).1.sensorData.sensors i =
      (F32.ofNat ((onTimerProcess hw s).1.sensorData.rawsensors i) -
          (onTimerProcess hw s).1.min) *
        (1 / ((onTimerProcess hw s).1.max - (onTimerProcess hw s).1.min))) ∧
    (onTimerProcess hw s).1.sensorData.TrackStatus =
      trackStatus (frameN2 (onTimerProcess hw s).1.sensorData)
        s.settings.TrackTreshold.Warning s.settings.TrackTreshold.Lost ∧
    (onTimerProcess hw s).1.sensorData.value =
      (frameN1 (onTimerProcess hw s).1.sensorData / frameN2 (onTimerProcess hw s).1.sensorData
        - 5 / 2) * s.settings.range + s.settings.offset := by
  have hsens : ∀ i, (onTimerProcess hw s).1.sensorData.sensors i =
      (F32.ofNat ((onTimerProcess hw s).1.sensorData.rawsensors i) -
          (onTimerProcess hw s).1.min) *
        (1 / ((onTimerProcess hw s).1.max - (onTimerProcess hw s).1.min)) := by
    intro i
    simp only [onTimerProcess]
    rw [(normalize_foldl_spec _ _ _ _ _).1 i]
    simp only [finRange_nodup_all.2 i, if_true]
  have hn2 : frameN2 (onTimerProcess hw s).1.sensorData =
      ((List.finRange NUM_SENSOR).foldl
        (normalizeBody (onTimerProcess hw s).1.sensorData.rawsensors (onTimerProcess hw s).1.min
          (1 / ((onTimerProcess hw s).1.max - (onTimerProcess hw s).1.min)))
        (s.sensorData.sensors, 0, 0)).2.2 := by
    rw [(normalize_foldl_spec _ _ _ _ _).2.2, frameN2]
    congr 1
    funext a i
    rw [hsens i]
  have hn1 : frameN1 (onTimerProcess hw s).1.sensorData =
      ((List.finRange NUM_SENSOR).foldl
        (normalizeBody (onTimerProcess hw s).1.sensorData.rawsensors (onTimerProcess hw s).1.min
          (1 / ((onTimerProcess hw s).1.max - (onTimerProcess hw s).1.min)))
        (s.sensorData.sensors, 0, 0)).2.1 := by
    rw [(normalize_foldl_spec _ _ _ _ _).2.1, frameN1]
    congr 1
    funext a i
    rw [hsens i]
  refine ⟨rfl, rfl, rfl, hsens, ?_, ?_⟩
  · rw [hn2]; rfl
  · rw [hn1, hn2]; rfl

/-- In `MANUAL` mode the processing step takes both bounds from the settings. -/
theorem onTimerProcess_manual (hw : Hw) (s : SensorModuleState)
    (hm : s.settings.CalibrationMode = LINESENSORSETTINGS_CALIBRATIONMODE_MANUAL) :
    (onTimerProcess hw s).1.max = s.settings.max ∧
    (onTimerProcess hw s).1.min = s.settings.min := by
  simp [onTimerProcess, calibrate, hm]

/-- C6: the processing step of `onTimer` classifies the track by the total
energy `n2` (the `float` sum the loop accumulates over the published normalised
values) with two `float` comparisons: `OK` when `n2 > Warning`, `WARNING` when
`n2 <= Warning` and `n2 > Lost`, `NOTRACK` in every other case (neither
comparison true); with `Warning = 2.0` and `Lost = 0.5` this is `OK` at
`n2 = 2.1`, `WARNING` at `1.0`, `NOTRACK` at `0.3`. -/
theorem C6_track_status_by_energy (hw : Hw) (s : SensorModuleState) :
    (frameN2 (publishedFrame hw s) > s.settings.TrackTreshold.Warning →
      (publishedFrame hw s).TrackStatus = LINESENSOR_TRACKSTATUS_OK) ∧
    (frameN2 (publishedFrame hw s) ≤ s.settings.TrackTreshold.Warning →
      frameN2 (publishedFrame hw s) > s.settings.TrackTreshold.Lost →
      (publishedFrame hw s).TrackStatus = LINESENSOR_TRACKSTATUS_WARNING) ∧
    (¬ frameN2 (publishedFrame hw s) > s.settings.TrackTreshold.Warning →
      ¬ frameN2 (publishedFrame hw s) > s.settings.TrackTreshold.Lost →
      (publishedFrame hw s).TrackStatus = LINESENSOR_TRACKSTATUS_NOTRACK) ∧
    (s.settings.TrackTreshold.Warning = 2 → s.settings.TrackTreshold.Lost = 1 / 2 →
      (frameN2 (publishedFrame hw s) = 21 / 10 →
        (publishedFrame hw s).TrackStatus = LINESENSOR_TRACKSTATUS_OK) ∧
      (frameN2 (publishedFrame hw s) = 1 →
        (publishedFrame hw s).TrackStatus = LINESENSOR_TRACKSTATUS_WARNING) ∧
      (frameN2 (publishedFrame hw s) = 3 / 10 →
        (publishedFrame hw s).TrackStatus = LINESENSOR_TRACKSTATUS_NOTRACK)) := by
  have h : (publishedFrame hw s).TrackStatus =
      trackStatus (frameN2 (publishedFrame hw s)) s.settings.TrackTreshold.Warning
        s.settings.TrackTreshold.Lost := (onTimerProcess_frame hw s).2.2.2.2.1
  refine ⟨?_, ?_, ?_, ?_⟩
  · intro h1
    rw [h, trackStatus, if_pos h1]
  · intro h1 h2
    rw [h, trackStatus, if_neg (f32_not_lt_of_le _ _ h1), if_pos h2]
  · intro h1 h2
    rw [h, trackStatus, if_neg h1, if_neg h2]
  · intro hW hL
    rw [h, hW, hL]
    refine ⟨fun e => ?_, fun e => ?_, fun e => ?_⟩ <;> rw [e] <;> decide

/-- Witness for C6: the processing step on three sample states in `MANUAL` mode
with thresholds 2.0 and 0.5, whose energies are the `float` values 2.1 (bounds
100 and 0, one reading 210), 1.0 and 0.3 (bounds 10 and 0, one reading 10
resp. 3).  With bounds 14 and 1 the readings 8, 4, 3, 9, 5, 3 accumulate to an
energy above 2.0 (`OK`); with bounds 7 and 4 the readings 5, 5, 5, 7, 4, 4
accumulate to exactly 2.0 (`WARNING`). -/
theorem C6_track_status_by_energy_witness :
    frameN2 (publishedFrame hwLow01 (moduleManual 100 0 (rawList [210]))) = 21 / 10 ∧
    frameN2 (publishedFrame hwLow01 (moduleManual 10 0 (rawList [10]))) = 1 ∧
    frameN2 (publishedFrame hwLow01 (moduleManual 10 0 (rawList [3]))) = 3 / 10 ∧
    (publishedFrame hwLow01 (moduleManual 100 0 (rawList [210]))).TrackStatus
      = LINESENSOR_TRACKSTATUS_OK ∧
    (publishedFrame hwLow01 (moduleManual 10 0 (rawList [10]))).TrackStatus
      = LINESENSOR_TRACKSTATUS_WARNING ∧
    (publishedFrame hwLow01 (moduleManual 10 0 (rawList [3]))).TrackStatus
      = LINESENSOR_TRACKSTATUS_NOTRACK ∧
    (publishedFrame hwLow01 (moduleManual 14 1 (rawList [8, 4, 3, 9, 5, 3]))).TrackStatus
      = LINESENSOR_TRACKSTATUS_OK ∧
    frameN2 (publishedFrame hwLow01 (moduleManual 7 4 (rawList [5, 5, 5, 7, 4, 4]))) = 2 ∧
    (publishedFrame hwLow01 (moduleManual 7 4 (rawList [5, 5, 5, 7, 4, 4]))).TrackStatus
      = LINESENSOR_TRACKSTATUS_WARNING :=
  ⟨by decide, by decide, by decide,
   (C6_track_status_by_energy hwLow01 (moduleManual 100 0 (rawList [210]))).2.2.2 rfl rfl
      |>.1 (by decide),
   (C6_track_status_by_energy hwLow01 (moduleManual 10 0 (rawList [10]))).2.2.2 rfl rfl
      |>.2.1 (by decide),
   (C6_track_status_by_energy hwLow01 (moduleManual 10 0 (rawList [3]))).2.2.2 rfl rfl
      |>.2.2 (by decide),
   (C6_track_status_by_energy hwLow01
      (moduleManual 14 1 (rawList [8, 4, 3, 9, 5, 3]))).1 (by decide),
   by decide,
   (C6_track_status_by_energy hwLow01
      (moduleManual 7 4 (rawList [5, 5, 5, 7, 4, 4]))).2.1 (by decide) (by decide)⟩

/-- C7: the processing step of `onTimer` publishes
`value = (n1 / n2 - 2.5f) * range + offset`, every operation in `float`, where
`n1` and `n2` are the sums of `normalized[i] * i` and of `normalized[i]` as the
loop accumulates them; for `n1 / n2 = 2.5`, `range = 1`, `offset = 0` the
published position is `0`. -/
theorem C7_position_from_centroid (hw : Hw) (s : SensorModuleState)
    (_hn2 : frameN2 (publishedFrame hw s) ≠ 0) :
    (publishedFrame hw s).value =
      (frameN1 (publishedFrame hw s) / frameN2 (publishedFrame hw s) - 5 / 2) *
        s.settings.range + s.settings.offset ∧
    (frameN1 (publishedFrame hw s) / frameN2 (publishedFrame hw s) = 5 / 2 →
      s.settings.range = 1 → s.settings.offset = 0 → (publishedFrame hw s).value = 0) := by
  have h : (publishedFrame hw s).value =
      (frameN1 (publishedFrame hw s) / frameN2 (publishedFrame hw s) - 5 / 2) *
        s.settings.range + s.settings.offset := (onTimerProcess_frame hw s).2.2.2.2.2
  refine ⟨h, ?_⟩
  intro hc hr ho
  rw [h, hc, hr, ho]
  decide

/-- Witness for C7: the sample `MANUAL` state with bounds 900 and 100, all
readings 500, range 1 and offset 0 has energy 3, first moment 7.5, centroid 2.5
and position 0. -/
theorem C7_position_from_centroid_witness :
    frameN2 (publishedFrame hwLow01 (moduleManual 900 100 (fun _ => 500))) = 3 ∧
    frameN1 (publishedFrame hwLow01 (moduleManual 900 100 (fun _ => 500))) = 15 / 2 ∧
    frameN2 (publishedFrame hwLow01 (moduleManual 900 100 (fun _ => 500))) ≠ 0 ∧
    (publishedFrame hwLow01 (moduleManual 900 100 (fun _ => 500))).value = 0 :=
  ⟨by decide, by decide, by decide,
   (C7_position_from_centroid hwLow01 (moduleManual 900 100 (fun _ => 500))
      (by decide)).2 (by decide) rfl rfl⟩

/-- C8: in `MANUAL` mode the processing step of `onTimer` takes both bounds
verbatim from the settings and publishes, in `float`,
`normalized[i] = ((float)raw[i] - min) * (1.0f / (max - min))` for every
channel, without clamping; with `min = 100`, `max = 900` and all raw readings
500 every normalised value is `0.5`. -/
theorem C8_manual_normalisation (hw : Hw) (s : SensorModuleState)
    (hm : s.settings.CalibrationMode = LINESENSORSETTINGS_CALIBRATIONMODE_MANUAL)
    (_hne : s.settings.max ≠ s.settings.min) :
    (onTimerProcess hw s).1.max = s.settings.max ∧
    (onTimerProcess hw s).1.min = s.settings.min ∧
    (publishedFrame hw s).max = s.settings.max ∧
    (publishedFrame hw s).min = s.settings.min ∧
    (publishedFrame hw s).rawsensors =
      (PIOS_Linesensor_read hw s.sensorData.rawsensors s.dev).1 ∧
    (∀ i, (publishedFrame hw s).sensors i =
      (F32.ofNat ((publishedFrame hw s).rawsensors i) - s.settings.min) *
        (1 / (s.settings.max - s.settings.min))) ∧
    (s.settings.min = 100 → s.settings.max = 900 →
      (∀ i, (publishedFrame hw s).rawsensors i = 500) →
      ∀ i, (publishedFrame hw s).sensors i = 1 / 2) := by
  obtain ⟨h1, h2⟩ := onTimerProcess_manual hw s hm
  obtain ⟨f1, f2, f3, f4, _, _⟩ := onTimerProcess_frame hw s
  have hs : ∀ i, (publishedFrame hw s).sensors i =
      (F32.ofNat ((publishedFrame hw s).rawsensors i) - s.settings.min) *
        (1 / (s.settings.max - s.settings.min)) := by
    intro i
    rw [publishedFrame, f4 i, h1, h2]
  refine ⟨h1, h2, ?_, ?_, f1, hs, ?_⟩
  · rw [publishedFrame, f2, h1]
  · rw [publishedFrame, f3, h2]
  · intro hmin hmax hraw i
    rw [hs i, hraw i, hmin, hmax]
    decide

/-- Witness for C8: the sample `MANUAL` state with `min = 100`, `max = 900` and
all six channels captured at 500 ticks publishes `0.5` on every channel; with
bounds 14 and 1 the reading 8 is published as the `float` nearest to
`7 * fl(1 / 13)`, which is 0.538461566 (`9033886 * 2^-24`). -/
theorem C8_manual_normalisation_witness :
    (moduleManual 900 100 (fun _ => 500)).settings.CalibrationMode =
      LINESENSORSETTINGS_CALIBRATIONMODE_MANUAL ∧
    (moduleManual 900 100 (fun _ => 500)).settings.max ≠
      (moduleManual 900 100 (fun _ => 500)).settings.min ∧
    (∀ i, (publishedFrame hwLow01 (moduleManual 900 100 (fun _ => 500))).rawsensors i = 500) ∧
    (∀ i, (publishedFrame hwLow01 (moduleManual 900 100 (fun _ => 500))).sensors i = 1 / 2) ∧
    (publishedFrame hwLow01 (moduleManual 14 1 (rawList [8, 4, 3, 9, 5, 3]))).sensors 0 =
      F32.fin false (9033886 * 2 ^ 125) :=
  ⟨rfl, by decide, by decide,
   (C8_manual_normalisation hwLow01 (moduleManual 900 100 (fun _ => 500)) rfl
      (by decide)).2.2.2.2.2.2 rfl rfl (by decide),
   by decide⟩

/-- The normalised values of the published frame in terms of its own bounds. -/
theorem publishedFrame_sensors (hw : Hw) (s : SensorModuleState) (i : Fin NUM_SENSOR) :
    (publishedFrame hw s).sensors i =
      (F32.ofNat ((publishedFrame hw s).rawsensors i) - (publishedFrame hw s).min) *
        (1 / ((publishedFrame hw s).max - (publishedFrame hw s).min)) := by
  obtain ⟨_, f2, f3, f4, _, _⟩ := onTimerProcess_frame hw s
  rw [publishedFrame, f4 i, f2, f3]

/-- The position published by the processing step in terms of the two sums. -/
theorem publishedFrame_value (hw : Hw) (s : SensorModuleState) :
    (publishedFrame hw s).value =
      (frameN1 (publishedFrame hw s) / frameN2 (publishedFrame hw s) - 5 / 2) *
        s.settings.range + s.settings.offset :=
  (onTimerProcess_frame hw s).2.2.2.2.2

/-- A zero is not above a threshold that is at least zero. -/
theorem f32_zero_not_gt (b : Bool) (w : F32) (hw : (0 : F32) ≤ w) : ¬ F32.fin b 0 > w := by
  rw [f32_one_zero.2.1, f32_le_iff] at hw
  show ¬ (F32.lt w (F32.fin b 0) = true)
  rcases w with ⟨c, k⟩ | c | _
  · simp only [F32.le, decide_eq_true_eq] at hw
    simp only [F32.lt, decide_eq_true_eq]
    have h0 : F32.signed b 0 = 0 := by cases b <;> rfl
    have h1 : F32.signed false 0 = 0 := rfl
    omega
  · simp only [F32.le] at hw
    simp only [F32.lt]
    simpa using hw
  · simp [F32.le] at hw

/-- With equal bounds the reciprocal of the range is not finite. -/
theorem invrange_notFinite (x : F32) : ((1 : F32) / (x - x)).isFinite = false := by
  cases hx : x.isFinite
  · rw [(f32_sub_self x).2 hx, f32_one_div_zero.2]; rfl
  · rw [(f32_sub_self x).1 hx, f32_one_div_zero.1]; rfl

/-- A first moment whose first term is a NaN is a NaN, and so is the position
computed from it. -/
theorem position_nan (v0 v1 v2 v3 v4 v5 n2 range offset : F32) (h : v0 = F32.nan) :
    (((0 : F32) + v0 + v1 + v2 + v3 + v4 + v5) / n2 - 5 / 2) * range + offset = F32.nan := by
  rw [h, (f32_add_nan 0).2, (f32_add_nan v1).1, (f32_add_nan v2).1, (f32_add_nan v3).1,
    (f32_add_nan v4).1, (f32_add_nan v5).1, (f32_div_nan n2).1, (f32_sub_nan _).1,
    (f32_mul_nan range).1, (f32_add_nan offset).1]

/-- C13 (counterexample): `MANUAL` mode with `max = min = 100` and all readings
500: the step computes `1.0f / 0.0f = +inf`, publishes `+inf` on every channel,
`TrackStatus = OK` (the energy is `+inf`) and a NaN position.  `MANUAL` mode
with bounds 900 and 100 and all readings 100: the energy is 0, the step computes
`0.0f / 0.0f` and publishes a NaN position. -/
theorem C13_degenerate_counterexample :
    (onTimerProcess hwLow01 (moduleManual 100 100 (fun _ => 500))).1.max =
      (onTimerProcess hwLow01 (moduleManual 100 100 (fun _ => 500))).1.min ∧
    (∀ i, (publishedFrame hwLow01 (moduleManual 100 100 (fun _ => 500))).sensors i =
      F32.inf false) ∧
    (publishedFrame hwLow01 (moduleManual 100 100 (fun _ => 500))).TrackStatus =
      LINESENSOR_TRACKSTATUS_OK ∧
    (publishedFrame hwLow01 (moduleManual 100 100 (fun _ => 500))).value = F32.nan ∧
    frameN2 (publishedFrame hwLow01 (moduleManual 900 100 (fun _ => 100))) = 0 ∧
    (publishedFrame hwLow01 (moduleManual 900 100 (fun _ => 100))).value = F32.nan := by
  decide

/-- C13 (amended): the processing step of `onTimer` has no guard.  In every step
the normalised values are `((float)raw[i] - min) * (1.0f / (max - min))`, the
track status is the one given by the two comparisons of `n2` with the
thresholds, and the position is `(n1 / n2 - 2.5f) * range + offset`, all in
`float`.  When the bounds are equal no published normalised value is finite and
the position is a NaN; when the energy `n2` is a zero the position is not
finite, and the track status is `NOTRACK` provided neither threshold is
negative. -/
theorem C13_unguarded_divisions (hw : Hw) (s : SensorModuleState) :
    (∀ i, (publishedFrame hw s).sensors i =
      (F32.ofNat ((publishedFrame hw s).rawsensors i) - (publishedFrame hw s).min) *
        (1 / ((publishedFrame hw s).max - (publishedFrame hw s).min))) ∧
    (publishedFrame hw s).TrackStatus =
      trackStatus (frameN2 (publishedFrame hw s)) s.settings.TrackTreshold.Warning
        s.settings.TrackTreshold.Lost ∧
    (publishedFrame hw s).value =
      (frameN1 (publishedFrame hw s) / frameN2 (publishedFrame hw s) - 5 / 2) *
        s.settings.range + s.settings.offset ∧
    ((publishedFrame hw s).max = (publishedFrame hw s).min →
      (∀ i, ((publishedFrame hw s).sensors i).isFinite = false) ∧
      (publishedFrame hw s).value = F32.nan) ∧
    (∀ b, frameN2 (publishedFrame hw s) = F32.fin b 0 →
      (publishedFrame hw s).value.isFinite = false ∧
      ((0 : F32) ≤ s.settings.TrackTreshold.Warning → (0 : F32) ≤ s.settings.TrackTreshold.Lost →
        (publishedFrame hw s).TrackStatus = LINESENSOR_TRACKSTATUS_NOTRACK)) := by
  have hT : (publishedFrame hw s).TrackStatus =
      trackStatus (frameN2 (publishedFrame hw s)) s.settings.TrackTreshold.Warning
        s.settings.TrackTreshold.Lost := (onTimerProcess_frame hw s).2.2.2.2.1
  refine ⟨publishedFrame_sensors hw s, hT, publishedFrame_value hw s, ?_, ?_⟩
  · intro heq
    have hnf : ∀ i, ((publishedFrame hw s).sensors i).isFinite = false := by
      intro i
      rw [publishedFrame_sensors, heq]
      exact f32_mul_notFinite _ _ (invrange_notFinite _)
    refine ⟨hnf, ?_⟩
    rw [publishedFrame_value, (frame_sums_six _).2]
    exact position_nan _ _ _ _ _ _ _ _ _ (f32_notFinite_mul_zero _ (hnf 0))
  · intro b hb
    constructor
    · rw [publishedFrame_value, hb]
      exact f32_notFinite_add _ _ (f32_notFinite_mul _ _
        (f32_notFinite_sub _ _ (f32_div_zero_notFinite _ b)))
    · intro hW hL
      rw [hT, hb, trackStatus, if_neg (f32_zero_not_gt b _ hW), if_neg (f32_zero_not_gt b _ hL)]

/-- Witness for C13 (amended): the sample `MANUAL` state with equal bounds 100
and readings 500 publishes no finite normalised value and a NaN position; the
one with bounds 900 and 100 and readings 100 has energy `+0`, thresholds 2.0
and 0.5, and publishes `NOTRACK` and a position that is not finite. -/
theorem C13_unguarded_divisions_witness :
    (publishedFrame hwLow01 (moduleManual 100 100 (fun _ => 500))).max =
      (publishedFrame hwLow01 (moduleManual 100 100 (fun _ => 500))).min ∧
    ((∀ i, ((publishedFrame hwLow01 (moduleManual 100 100 (fun _ => 500))).sensors i).isFinite
        = false) ∧
      (publishedFrame hwLow01 (moduleManual 100 100 (fun _ => 500))).value = F32.nan) ∧
    frameN2 (publishedFrame hwLow01 (moduleManual 900 100 (fun _ => 100))) = F32.fin false 0 ∧
    (publishedFrame hwLow01 (moduleManual 900 100 (fun _ => 100))).value.isFinite = false ∧
    (publishedFrame hwLow01 (moduleManual 900 100 (fun _ => 100))).TrackStatus =
      LINESENSOR_TRACKSTATUS_NOTRACK :=
  ⟨by decide,
   (C13_unguarded_divisions hwLow01 (moduleManual 100 100 (fun _ => 500))).2.2.2.1 (by decide),
   by decide,
   ((C13_unguarded_divisions hwLow01 (moduleManual 900 100 (fun _ => 100))).2.2.2.2 false
      (by decide)).1,
   ((C13_unguarded_divisions hwLow01 (moduleManual 900 100 (fun _ => 100))).2.2.2.2 false
      (by decide)).2 (by decide) (by decide)⟩

/-- The raw readings of the published frame, channel by channel. -/
theorem publishedFrame_raw (hw : Hw) (s : SensorModuleState) (i : Fin NUM_SENSOR) :
    (publishedFrame hw s).rawsensors i =
      (if s.dev.status i then s.dev.timings i else 0xFFFF) % 65536 := by
  rw [publishedFrame, (onTimerProcess_frame hw s).1, read_entry]


/-- The processing step in `DONE` mode: bounds kept, flag set, one save if the
flag was clear. -/
theorem onTimerProcess_done (hw : Hw) (s : SensorModuleState)
    (hm : s.settings.CalibrationMode = LINESENSORSETTINGS_CALIBRATIONMODE_DONE) :
    (onTimerProcess hw s).1.max = s.max ∧
    (onTimerProcess hw s).1.min = s.min ∧
    (onTimerProcess hw s).1.calibrationSaved = true ∧
    (onTimerProcess hw s).2 =
      (if s.calibrationSaved then (none, none) else (some s.max, some s.min)) := by
  cases hs : s.calibrationSaved <;> simp [onTimerProcess, calibrate, hm, hs]

/-- The processing step in `ENABLED` mode clears the flag and saves nothing. -/
theorem onTimerProcess_enabled_flag (hw : Hw) (s : SensorModuleState)
    (hm : s.settings.CalibrationMode = LINESENSORSETTINGS_CALIBRATIONMODE_ENABLED) :
    (onTimerProcess hw s).1.calibrationSaved = false ∧
    (onTimerProcess hw s).2 = (none, none) := by
  simp [onTimerProcess, calibrate, hm]

/-- The processing step in `MANUAL` mode keeps the flag and saves nothing. -/
theorem onTimerProcess_manual_flag (hw : Hw) (s : SensorModuleState)
    (hm : s.settings.CalibrationMode = LINESENSORSETTINGS_CALIBRATIONMODE_MANUAL) :
    (onTimerProcess hw s).1.calibrationSaved = s.calibrationSaved ∧
    (onTimerProcess hw s).2 = (none, none) := by
  simp [onTimerProcess, calibrate, hm]

/-- C14: when a `DONE`-mode processing step saves its bounds `M`, `m` to the
settings store and a later processing step runs in `MANUAL` mode with the
settings holding `max = M`, `min = m`, the `MANUAL` step publishes, for the same
raw readings, the same normalised array as the `DONE` step (the saved values are
the running bounds of the `DONE` step). -/
theorem C14_done_manual_round_trip (hw1 hw2 : Hw) (s1 s2 : SensorModuleState) (M m : F32)
    (hdone : s1.settings.CalibrationMode = LINESENSORSETTINGS_CALIBRATIONMODE_DONE)
    (hsave : (onTimerProcess hw1 s1).2 = (some M, some m))
    (hman : s2.settings.CalibrationMode = LINESENSORSETTINGS_CALIBRATIONMODE_MANUAL)
    (hmax : s2.settings.max = M) (hmin : s2.settings.min = m)
    (hraw : (publishedFrame hw2 s2).rawsensors = (publishedFrame hw1 s1).rawsensors) :
    M = s1.max ∧ m = s1.min ∧
    (publishedFrame hw2 s2).sensors = (publishedFrame hw1 s1).sensors := by
  obtain ⟨d1, d2, _, d4⟩ := onTimerProcess_done hw1 s1 hdone
  obtain ⟨m1, m2⟩ := onTimerProcess_manual hw2 s2 hman
  have hMm : M = s1.max ∧ m = s1.min := by
    rw [d4] at hsave
    cases hs : s1.calibrationSaved
    · rw [hs] at hsave
      simp only [Bool.false_eq_true, if_false, Prod.mk.injEq, Option.some.injEq] at hsave
      exact ⟨hsave.1.symm, hsave.2.symm⟩
    · rw [hs] at hsave
      simp at hsave
  refine ⟨hMm.1, hMm.2, funext fun i => ?_⟩
  have e2 := (onTimerProcess_frame hw2 s2).2.2.2.1 i
  have e1 := (onTimerProcess_frame hw1 s1).2.2.2.1 i
  rw [publishedFrame] at hraw ⊢
  rw [publishedFrame, e2, e1, hraw, m1, m2, d1, d2, hmax, hmin, hMm.1, hMm.2]
  rfl

/-- Witness for C14: the start-up state in `DONE` mode (running bounds 1 and
65535, six channels captured at 500 ticks) saves `(1, 65535)`; the `MANUAL`
state with these bounds and the same readings publishes the same array. -/
theorem C14_done_manual_round_trip_witness :
    (onTimerProcess hwLow01 moduleStart).2 = (some 1, some 65535) ∧
    (publishedFrame hwLow01 (moduleManual 1 65535 (fun _ => 500))).rawsensors =
      (publishedFrame hwLow01 moduleStart).rawsensors ∧
    (publishedFrame hwLow01 (moduleManual 1 65535 (fun _ => 500))).sensors =
      (publishedFrame hwLow01 moduleStart).sensors :=
  have hsave : (onTimerProcess hwLow01 moduleStart).2 = (some 1, some 65535) :=
    (onTimerProcess_done hwLow01 moduleStart rfl).2.2.2
  have hraw : (publishedFrame hwLow01 (moduleManual 1 65535 (fun _ => 500))).rawsensors =
      (publishedFrame hwLow01 moduleStart).rawsensors :=
    funext fun i => by rw [publishedFrame_raw, publishedFrame_raw]; rfl
  ⟨hsave, hraw,
   (C14_done_manual_round_trip hwLow01 hwLow01 moduleStart
      (moduleManual 1 65535 (fun _ => 500)) 1 65535 rfl hsave rfl rfl rfl hraw).2.2⟩

/-- A run of `DONE`-mode processing steps entered with the flag set writes
nothing and keeps the bounds. -/
theorem processWrites_done_saved (steps : List (Hw × LineSensorSettingsData)) :
    ∀ (s : SensorModuleState),
      (∀ y ∈ steps, y.2.CalibrationMode = LINESENSORSETTINGS_CALIBRATIONMODE_DONE) →
      s.calibrationSaved = true →
      processWrites steps s = steps.map (fun _ => (none, none)) ∧
      (processRun steps s).max = s.max ∧ (processRun steps s).min = s.min := by
  induction steps with
  | nil => intro s _ _; exact ⟨rfl, rfl, rfl⟩
  | cons x rest ih =>
    intro s hall hs
    obtain ⟨hw, st⟩ := x
    have hm : (settingscb st s).settings.CalibrationMode =
        LINESENSORSETTINGS_CALIBRATIONMODE_DONE := hall (hw, st) (List.mem_cons_self _ _)
    obtain ⟨d1, d2, d3, d4⟩ := onTimerProcess_done hw (settingscb st s) hm
    have hs' : (settingscb st s).calibrationSaved = true := hs
    rw [hs'] at d4
    obtain ⟨i1, i2, i3⟩ := ih (onTimerProcess hw (settingscb st s)).1
      (fun y hy => hall y (List.mem_cons_of_mem _ hy)) d3
    refine ⟨?_, ?_, ?_⟩
    · simp only [processWrites, List.map_cons, i1, d4, if_true]
    · simp only [processRun, List.foldl_cons] at i2 ⊢
      rw [i2, d1]; rfl
    · simp only [processRun, List.foldl_cons] at i3 ⊢
      rw [i3, d2]; rfl

/-- C15 (counterexample): from the start-up state, a `DONE` step, then a
`MANUAL` step, then a `DONE` step: the first `DONE` step saves, the second
`DONE` run, although it follows a step in another mode, writes nothing. -/
theorem C15_done_after_manual_counterexample :
    processWrites
      [(hwLow01, settingsMode LINESENSORSETTINGS_CALIBRATIONMODE_DONE),
       (hwLow01, settingsMode LINESENSORSETTINGS_CALIBRATIONMODE_MANUAL),
       (hwLow01, settingsMode LINESENSORSETTINGS_CALIBRATIONMODE_DONE)] moduleStart =
      [(some 1, some 65535), (none, none), (none, none)] := by
  obtain ⟨_, _, d3, d4⟩ := onTimerProcess_done hwLow01
    (settingscb (settingsMode LINESENSORSETTINGS_CALIBRATIONMODE_DONE) moduleStart) rfl
  obtain ⟨m1, m2⟩ := onTimerProcess_manual_flag hwLow01
    (settingscb (settingsMode LINESENSORSETTINGS_CALIBRATIONMODE_MANUAL)
      (onTimerProcess hwLow01
        (settingscb (settingsMode LINESENSORSETTINGS_CALIBRATIONMODE_DONE) moduleStart)).1) rfl
  obtain ⟨_, _, _, e4⟩ := onTimerProcess_done hwLow01
    (settingscb (settingsMode LINESENSORSETTINGS_CALIBRATIONMODE_DONE)
      (onTimerProcess hwLow01
        (settingscb (settingsMode LINESENSORSETTINGS_CALIBRATIONMODE_MANUAL)
          (onTimerProcess hwLow01
            (settingscb (settingsMode LINESENSORSETTINGS_CALIBRATIONMODE_DONE)
              moduleStart)).1)).1) rfl
  have hflag : (settingscb (settingsMode LINESENSORSETTINGS_CALIBRATIONMODE_DONE)
      (onTimerProcess hwLow01
        (settingscb (settingsMode LINESENSORSETTINGS_CALIBRATIONMODE_MANUAL)
          (onTimerProcess hwLow01
            (settingscb (settingsMode LINESENSORSETTINGS_CALIBRATIONMODE_DONE)
              moduleStart)).1)).1).calibrationSaved = true := m1.trans d3
  rw [hflag] at e4
  simp only [processWrites, d4, m2, e4, if_true]
  rfl

/-- C15 (amended): a `DONE`-mode processing step keeps `max` and `min`, sets
`calibrationSaved`, and writes `max` and `min` to the settings store exactly
when the flag was clear on entry; an `ENABLED` step clears the flag, a `MANUAL`
step leaves it as it is, neither writes; the flag is clear at start-up.  Hence a
run of consecutive `DONE` steps entered with the flag clear (after an `ENABLED`
step or at start-up) writes in its first step and in no later one, and keeps
the bounds throughout. -/
theorem C15_done_saves_once (s : SensorModuleState) :
    (∀ hw, s.settings.CalibrationMode = LINESENSORSETTINGS_CALIBRATIONMODE_DONE →
      (onTimerProcess hw s).1.max = s.max ∧ (onTimerProcess hw s).1.min = s.min ∧
      (onTimerProcess hw s).1.calibrationSaved = true ∧
      (s.calibrationSaved = false → (onTimerProcess hw s).2 = (some s.max, some s.min)) ∧
      (s.calibrationSaved = true → (onTimerProcess hw s).2 = (none, none))) ∧
    (∀ hw, s.settings.CalibrationMode = LINESENSORSETTINGS_CALIBRATIONMODE_ENABLED →
      (onTimerProcess hw s).1.calibrationSaved = false ∧
      (onTimerProcess hw s).2 = (none, none)) ∧
    (∀ hw, s.settings.CalibrationMode = LINESENSORSETTINGS_CALIBRATIONMODE_MANUAL →
      (onTimerProcess hw s).1.calibrationSaved = s.calibrationSaved ∧
      (onTimerProcess hw s).2 = (none, none)) ∧
    (∀ settings dev track0, (sensorModuleInit settings dev track0).calibrationSaved = false) ∧
    (∀ x rest,
      (∀ y ∈ x :: rest, y.2.CalibrationMode = LINESENSORSETTINGS_CALIBRATIONMODE_DONE) →
      s.calibrationSaved = false →
      processWrites (x :: rest) s =
        (some s.max, some s.min) :: rest.map (fun _ => (none, none)) ∧
      (processRun (x :: rest) s).max = s.max ∧ (processRun (x :: rest) s).min = s.min) := by
  refine ⟨fun hw hm => ?_, fun hw hm => onTimerProcess_enabled_flag hw s hm,
    fun hw hm => onTimerProcess_manual_flag hw s hm, fun _ _ _ => rfl, ?_⟩
  · obtain ⟨d1, d2, d3, d4⟩ := onTimerProcess_done hw s hm
    refine ⟨d1, d2, d3, fun h => ?_, fun h => ?_⟩
    · rw [d4, h]; rfl
    · rw [d4, h]; rfl
  · intro x rest hall hs
    obtain ⟨hw, st⟩ := x
    have hm : (settingscb st s).settings.CalibrationMode =
        LINESENSORSETTINGS_CALIBRATIONMODE_DONE := hall (hw, st) (List.mem_cons_self _ _)
    obtain ⟨d1, d2, d3, d4⟩ := onTimerProcess_done hw (settingscb st s) hm
    have hs' : (settingscb st s).calibrationSaved = false := hs
    rw [hs'] at d4
    obtain ⟨i1, i2, i3⟩ := processWrites_done_saved rest (onTimerProcess hw (settingscb st s)).1
      (fun y hy => hall y (List.mem_cons_of_mem _ hy)) d3
    refine ⟨?_, ?_, ?_⟩
    · simp only [processWrites, i1, d4]
      rfl
    · simp only [processRun, List.foldl_cons] at i2 ⊢
      rw [i2, d1]; rfl
    · simp only [processRun, List.foldl_cons] at i3 ⊢
      rw [i3, d2]; rfl

/-- Witness for C15 (amended): three `DONE` steps from the start-up state (flag
clear, bounds 1 and 65535): one save, in the first step. -/
theorem C15_done_saves_once_witness :
    moduleStart.calibrationSaved = false ∧
    processWrites
      [(hwLow01, settingsMode LINESENSORSETTINGS_CALIBRATIONMODE_DONE),
       (hwLow01, settingsMode LINESENSORSETTINGS_CALIBRATIONMODE_DONE),
       (hwLow01, settingsMode LINESENSORSETTINGS_CALIBRATIONMODE_DONE)] moduleStart =
      [(some moduleStart.max, some moduleStart.min), (none, none), (none, none)] :=
  ⟨rfl, ((C15_done_saves_once moduleStart).2.2.2.2
    (hwLow01, settingsMode LINESENSORSETTINGS_CALIBRATIONMODE_DONE)
    [(hwLow01, settingsMode LINESENSORSETTINGS_CALIBRATIONMODE_DONE),
     (hwLow01, settingsMode LINESENSORSETTINGS_CALIBRATIONMODE_DONE)]
    (by simp [settingsMode]) rfl).1⟩

/-- One iteration of the `ENABLED` sweep, running maximum: a NaN stays; any other
value moves to the larger of itself and a non-sentinel reading (`float`
comparison) and stays for the sentinel. -/
theorem calibrateBody_max (raw : Fin NUM_SENSOR → Nat) (mm : F32 × F32) (j : Fin NUM_SENSOR) :
    (mm.1 = F32.nan → (calibrateBody raw mm j).1 = F32.nan) ∧
    (mm.1 ≠ F32.nan → mm.1 ≤ (calibrateBody raw mm j).1 ∧
      (raw j ≠ 0xFFFF → F32.ofNat (raw j) ≤ (calibrateBody raw mm j).1)) ∧
    ((calibrateBody raw mm j).1 = mm.1 ∨
      (raw j ≠ 0xFFFF ∧ (calibrateBody raw mm j).1 = F32.ofNat (raw j))) := by
  by_cases hs : raw j ≠ 0xFFFF
  · have hb : (calibrateBody raw mm j).1 =
        if F32.ofNat (raw j) > mm.1 then F32.ofNat (raw j) else mm.1 := by
      unfold calibrateBody
      rw [if_pos hs]
    rw [hb]
    by_cases h : F32.ofNat (raw j) > mm.1
    · rw [if_pos h]
      exact ⟨fun hn => absurd h (by rw [hn]; exact (f32_nan_not_lt _).1),
        fun _ => ⟨f32_le_of_lt _ _ h, fun _ => f32_le_refl _ (f32_ofNat_ne_nan _)⟩,
        Or.inr ⟨hs, rfl⟩⟩
    · rw [if_neg h]
      exact ⟨fun hn => hn,
        fun hn => ⟨f32_le_refl _ hn,
          fun _ => f32_le_of_not_lt _ _ hn (f32_ofNat_ne_nan _) h⟩,
        Or.inl rfl⟩
  · have hb : calibrateBody raw mm j = mm := by
      unfold calibrateBody
      exact if_neg hs
    rw [hb]
    exact ⟨fun hn => hn, fun hn => ⟨f32_le_refl _ hn, fun h => absurd h hs⟩, Or.inl rfl⟩

/-- One iteration of the `ENABLED` sweep, running minimum: a NaN stays; any other
value moves to the smaller of itself and a non-sentinel reading (`float`
comparison) and stays for the sentinel. -/
theorem calibrateBody_min (raw : Fin NUM_SENSOR → Nat) (mm : F32 × F32) (j : Fin NUM_SENSOR) :
    (mm.2 = F32.nan → (calibrateBody raw mm j).2 = F32.nan) ∧
    (mm.2 ≠ F32.nan → (calibrateBody raw mm j).2 ≤ mm.2 ∧
      (raw j ≠ 0xFFFF → (calibrateBody raw mm j).2 ≤ F32.ofNat (raw j))) ∧
    ((calibrateBody raw mm j).2 = mm.2 ∨
      (raw j ≠ 0xFFFF ∧ (calibrateBody raw mm j).2 = F32.ofNat (raw j))) := by
  by_cases hs : raw j ≠ 0xFFFF
  · have hb : (calibrateBody raw mm j).2 =
        if F32.ofNat (raw j) < mm.2 then F32.ofNat (raw j) else mm.2 := by
      unfold calibrateBody
      rw [if_pos hs]
    rw [hb]
    by_cases h : F32.ofNat (raw j) < mm.2
    · rw [if_pos h]
      exact ⟨fun hn => absurd h (by rw [hn]; exact (f32_nan_not_lt _).2),
        fun _ => ⟨f32_le_of_lt _ _ h, fun _ => f32_le_refl _ (f32_ofNat_ne_nan _)⟩,
        Or.inr ⟨hs, rfl⟩⟩
    · rw [if_neg h]
      exact ⟨fun hn => hn,
        fun hn => ⟨f32_le_refl _ hn,
          fun _ => f32_le_of_not_lt _ _ (f32_ofNat_ne_nan _) hn h⟩,
        Or.inl rfl⟩
  · have hb : calibrateBody raw mm j = mm := by
      unfold calibrateBody
      exact if_neg hs
    rw [hb]
    exact ⟨fun hn => hn, fun hn => ⟨f32_le_refl _ hn, fun h => absurd h hs⟩, Or.inl rfl⟩

/-- The `ENABLED` sweep over a list of channels, running maximum: the largest of
the old maximum and the non-sentinel readings (a NaN stays). -/
theorem calibrate_foldl_max (raw : Fin NUM_SENSOR → Nat) (l : List (Fin NUM_SENSOR)) :
    ∀ (mm : F32 × F32),
    (mm.1 = F32.nan → (l.foldl (calibrateBody raw) mm).1 = F32.nan) ∧
    (mm.1 ≠ F32.nan → mm.1 ≤ (l.foldl (calibrateBody raw) mm).1 ∧
      (∀ i ∈ l, raw i ≠ 0xFFFF → F32.ofNat (raw i) ≤ (l.foldl (calibrateBody raw) mm).1)) ∧
    ((l.foldl (calibrateBody raw) mm).1 = mm.1 ∨
      ∃ i ∈ l, raw i ≠ 0xFFFF ∧ (l.foldl (calibrateBody raw) mm).1 = F32.ofNat (raw i)) := by
  induction l with
  | nil =>
    intro mm
    exact ⟨fun h => h, fun h => ⟨f32_le_refl _ h, fun i hi => absurd hi (List.not_mem_nil i)⟩,
      Or.inl rfl⟩
  | cons j l ih =>
    intro mm
    obtain ⟨a1, a2, a3⟩ := ih (calibrateBody raw mm j)
    obtain ⟨c1, c2, c3⟩ := calibrateBody_max raw mm j
    simp only [List.foldl_cons]
    refine ⟨fun h => a1 (c1 h), fun h => ?_, ?_⟩
    · obtain ⟨c21, c22⟩ := c2 h
      obtain ⟨a21, a22⟩ := a2 (f32_le_ne_nan _ _ c21).2
      refine ⟨f32_le_trans _ _ _ c21 a21, fun i hi hs => ?_⟩
      rcases List.mem_cons.mp hi with e | e
      · subst e; exact f32_le_trans _ _ _ (c22 hs) a21
      · exact a22 i e hs
    · rcases a3 with e | ⟨i, hi, hs, e⟩
      · rcases c3 with e' | ⟨hs, e'⟩
        · exact Or.inl (e.trans e')
        · exact Or.inr ⟨j, List.mem_cons_self _ _, hs, e.trans e'⟩
      · exact Or.inr ⟨i, List.mem_cons_of_mem _ hi, hs, e⟩

/-- The `ENABLED` sweep over a list of channels, running minimum: the smallest
of the old minimum and the non-sentinel readings (a NaN stays). -/
theorem calibrate_foldl_min (raw : Fin NUM_SENSOR → Nat) (l : List (Fin NUM_SENSOR)) :
    ∀ (mm : F32 × F32),
    (mm.2 = F32.nan → (l.foldl (calibrateBody raw) mm).2 = F32.nan) ∧
    (mm.2 ≠ F32.nan → (l.foldl (calibrateBody raw) mm).2 ≤ mm.2 ∧
      (∀ i ∈ l, raw i ≠ 0xFFFF → (l.foldl (calibrateBody raw) mm).2 ≤ F32.ofNat (raw i))) ∧
    ((l.foldl (calibrateBody raw) mm).2 = mm.2 ∨
      ∃ i ∈ l, raw i ≠ 0xFFFF ∧ (l.foldl (calibrateBody raw) mm).2 = F32.ofNat (raw i)) := by
  induction l with
  | nil =>
    intro mm
    exact ⟨fun h => h, fun h => ⟨f32_le_refl _ h, fun i hi => absurd hi (List.not_mem_nil i)⟩,
      Or.inl rfl⟩
  | cons j l ih =>
    intro mm
    obtain ⟨a1, a2, a3⟩ := ih (calibrateBody raw mm j)
    obtain ⟨c1, c2, c3⟩ := calibrateBody_min raw mm j
    simp only [List.foldl_cons]
    refine ⟨fun h => a1 (c1 h), fun h => ?_, ?_⟩
    · obtain ⟨c21, c22⟩ := c2 h
      obtain ⟨a21, a22⟩ := a2 (f32_le_ne_nan _ _ c21).1
      refine ⟨f32_le_trans _ _ _ a21 c21, fun i hi hs => ?_⟩
      rcases List.mem_cons.mp hi with e | e
      · subst e; exact f32_le_trans _ _ _ a21 (c22 hs)
      · exact a22 i e hs
    · rcases a3 with e | ⟨i, hi, hs, e⟩
      · rcases c3 with e' | ⟨hs, e'⟩
        · exact Or.inl (e.trans e')
        · exact Or.inr ⟨j, List.mem_cons_self _ _, hs, e.trans e'⟩
      · exact Or.inr ⟨i, List.mem_cons_of_mem _ hi, hs, e⟩

/-- The processing step in `ENABLED` mode: the new bounds are the decayed result
of the sweep over the readings just taken. -/
theorem onTimerProcess_enabled (hw : Hw) (s : SensorModuleState)
    (hm : s.settings.CalibrationMode = LINESENSORSETTINGS_CALIBRATIONMODE_ENABLED) :
    (onTimerProcess hw s).1.max = 999 / 1000 *
      ((List.finRange NUM_SENSOR).foldl (calibrateBody (publishedFrame hw s).rawsensors)
        (s.max, s.min)).1 ∧
    (onTimerProcess hw s).1.min = 1001 / 1000 *
      ((List.finRange NUM_SENSOR).foldl (calibrateBody (publishedFrame hw s).rawsensors)
        (s.max, s.min)).2 := by
  simp [onTimerProcess, publishedFrame, calibrate, hm]

/-- C16: in `ENABLED` mode one processing step of `onTimer` leaves, in `float`,
`max = 0.999f * X` and `min = 1.001f * Y`, where `X` is the largest of the
previous `max` and the non-sentinel readings and `Y` the smallest of the
previous `min` and the non-sentinel readings (so `X`, `Y` are the previous
bounds when every reading is `0xFFFF`; a previous bound that is a NaN stays a
NaN), and clears `calibrationSaved`.  `0.999f` and `1.001f` are the `float`
numbers nearest to 0.999 and 1.001 and each product is rounded. -/
theorem C16_enabled_bounds (hw : Hw) (s : SensorModuleState)
    (hm : s.settings.CalibrationMode = LINESENSORSETTINGS_CALIBRATIONMODE_ENABLED) :
    ∃ X Y : F32,
      (onTimerProcess hw s).1.max = 999 / 1000 * X ∧
      (onTimerProcess hw s).1.min = 1001 / 1000 * Y ∧
      ((s.max ≠ F32.nan → s.max ≤ X ∧
          ∀ i, (publishedFrame hw s).rawsensors i ≠ 0xFFFF →
            F32.ofNat ((publishedFrame hw s).rawsensors i) ≤ X) ∧
        (s.max = F32.nan → X = F32.nan) ∧
        (X = s.max ∨ ∃ i, (publishedFrame hw s).rawsensors i ≠ 0xFFFF ∧
          X = F32.ofNat ((publishedFrame hw s).rawsensors i))) ∧
      ((s.min ≠ F32.nan → Y ≤ s.min ∧
          ∀ i, (publishedFrame hw s).rawsensors i ≠ 0xFFFF →
            Y ≤ F32.ofNat ((publishedFrame hw s).rawsensors i)) ∧
        (s.min = F32.nan → Y = F32.nan) ∧
        (Y = s.min ∨ ∃ i, (publishedFrame hw s).rawsensors i ≠ 0xFFFF ∧
          Y = F32.ofNat ((publishedFrame hw s).rawsensors i))) ∧
      ((∀ i, (publishedFrame hw s).rawsensors i = 0xFFFF) → X = s.max ∧ Y = s.min) ∧
      (onTimerProcess hw s).1.calibrationSaved = false := by
  obtain ⟨h1, h2⟩ := onTimerProcess_enabled hw s hm
  obtain ⟨a1, a2, a3⟩ := calibrate_foldl_max
    (publishedFrame hw s).rawsensors (List.finRange NUM_SENSOR) (s.max, s.min)
  obtain ⟨b1, b2, b3⟩ := calibrate_foldl_min
    (publishedFrame hw s).rawsensors (List.finRange NUM_SENSOR) (s.max, s.min)
  refine ⟨_, _, h1, h2,
    ⟨fun h => ⟨(a2 h).1, fun i => (a2 h).2 i (finRange_nodup_all.2 i)⟩, a1, ?_⟩,
    ⟨fun h => ⟨(b2 h).1, fun i => (b2 h).2 i (finRange_nodup_all.2 i)⟩, b1, ?_⟩, ?_,
    (onTimerProcess_enabled_flag hw s hm).1⟩
  · rcases a3 with h | ⟨i, _, hs, h⟩
    · exact Or.inl h
    · exact Or.inr ⟨i, hs, h⟩
  · rcases b3 with h | ⟨i, _, hs, h⟩
    · exact Or.inl h
    · exact Or.inr ⟨i, hs, h⟩
  · intro hall
    constructor
    · rcases a3 with h | ⟨i, _, hs, _⟩
      · exact h
      · exact absurd (hall i) hs
    · rcases b3 with h | ⟨i, _, hs, _⟩
      · exact h
      · exact absurd (hall i) hs

/-- Witness for C16: the sample `ENABLED` state with running bounds 1000 and
100, the sentinel on channel 0 and 500 on the others: the step leaves
`max = 999` and `min = fl(1.001f * 100) = 100.100006` (`13120308 * 2^-17`, the
bit pattern `0x42c83334`). -/
theorem C16_enabled_bounds_witness :
    moduleEnabled.settings.CalibrationMode = LINESENSORSETTINGS_CALIBRATIONMODE_ENABLED ∧
    (onTimerProcess hwLow01 moduleEnabled).1.max = 999 ∧
    (onTimerProcess hwLow01 moduleEnabled).1.min = F32.fin false (13120308 * 2 ^ 132) ∧
    ∃ X Y : F32,
      (onTimerProcess hwLow01 moduleEnabled).1.max = 999 / 1000 * X ∧
      (onTimerProcess hwLow01 moduleEnabled).1.min = 1001 / 1000 * Y ∧
      ((moduleEnabled.max ≠ F32.nan → moduleEnabled.max ≤ X ∧
          ∀ i, (publishedFrame hwLow01 moduleEnabled).rawsensors i ≠ 0xFFFF →
            F32.ofNat ((publishedFrame hwLow01 moduleEnabled).rawsensors i) ≤ X) ∧
        (moduleEnabled.max = F32.nan → X = F32.nan) ∧
        (X = moduleEnabled.max ∨ ∃ i, (publishedFrame hwLow01 moduleEnabled).rawsensors i ≠
          0xFFFF ∧ X = F32.ofNat ((publishedFrame hwLow01 moduleEnabled).rawsensors i))) ∧
      ((moduleEnabled.min ≠ F32.nan → Y ≤ moduleEnabled.min ∧
          ∀ i, (publishedFrame hwLow01 moduleEnabled).rawsensors i ≠ 0xFFFF →
            Y ≤ F32.ofNat ((publishedFrame hwLow01 moduleEnabled).rawsensors i)) ∧
        (moduleEnabled.min = F32.nan → Y = F32.nan) ∧
        (Y = moduleEnabled.min ∨ ∃ i, (publishedFrame hwLow01 moduleEnabled).rawsensors i ≠
          0xFFFF ∧ Y = F32.ofNat ((publishedFrame hwLow01 moduleEnabled).rawsensors i))) ∧
      ((∀ i, (publishedFrame hwLow01 moduleEnabled).rawsensors i = 0xFFFF) →
        X = moduleEnabled.max ∧ Y = moduleEnabled.min) ∧
      (onTimerProcess hwLow01 moduleEnabled).1.calibrationSaved = false :=
  ⟨rfl, by decide, by decide, C16_enabled_bounds hwLow01 moduleEnabled rfl⟩

/-- C17 (evaluation at the failing input): `ENABLED` mode, running bounds 1000
and 100, channel 0 not captured (reading `0xFFFF`), the other channels at 500.
The step leaves the bounds 999 and `1.001f * 100` (100.100006) and normalises
channel 0 from the raw value 65535,
`(65535 - min) * (1.0f / (999 - min))`, a value between 72 and 73, which is
neither the value for the running maximum 1000 nor the one for the decayed
maximum 999 (both about 1): the sweep assigns `max` to the local copy `value`
only. -/
theorem C17_sentinel_normalised_from_raw :
    (publishedFrame hwLow01 moduleEnabled).rawsensors 0 = 0xFFFF ∧
    (onTimerProcess hwLow01 moduleEnabled).1.max = 999 ∧
    (onTimerProcess hwLow01 moduleEnabled).1.min = 1001 / 1000 * 100 ∧
    (publishedFrame hwLow01 moduleEnabled).sensors 0 =
      (65535 - 1001 / 1000 * 100) * (1 / (999 - 1001 / 1000 * 100)) ∧
    (publishedFrame hwLow01 moduleEnabled).sensors 0 ≠
      (1000 - 1001 / 1000 * 100) * (1 / (999 - 1001 / 1000 * 100)) ∧
    (publishedFrame hwLow01 moduleEnabled).sensors 0 ≠
      (999 - 1001 / 1000 * 100) * (1 / (999 - 1001 / 1000 * 100)) ∧
    (72 : F32) < (publishedFrame hwLow01 moduleEnabled).sensors 0 ∧
    (publishedFrame hwLow01 moduleEnabled).sensors 0 < 73 ∧
    (1000 - 1001 / 1000 * 100 : F32) * (1 / (999 - 1001 / 1000 * 100)) < 2 := by
  decide

/-- One `onTimer` invocation entered with the step counter at 0: the acquisition
is started and the counter goes to 1; nothing else changes and nothing goes
out. -/
theorem onTimer_step_start (hw : Hw) (s : SensorModuleState) (hs : s.status = 0) :
    (onTimer hw s).1 = { s with dev := PIOS_Linesensor_start hw s.dev, status := 1 } ∧
    (onTimer hw s).2.calls = [DriverCall.start] ∧
    (onTimer hw s).2.published = none ∧
    (onTimer hw s).2.maxSet = none ∧ (onTimer hw s).2.minSet = none := by
  unfold onTimer
  rw [hs]
  exact ⟨rfl, rfl, rfl, rfl, rfl⟩

/-- One `onTimer` invocation entered with the step counter at 1: the processing
step runs, its frame is published and its saves go out. -/
theorem onTimer_step_process (hw : Hw) (s : SensorModuleState) (hs : s.status = 1) :
    (onTimer hw s).1 = (onTimerProcess hw s).1 ∧
    (onTimer hw s).2.calls = [DriverCall.read] ∧
    (onTimer hw s).2.published = some (onTimerProcess hw s).1.sensorData ∧
    (onTimer hw s).2.maxSet = (onTimerProcess hw s).2.1 ∧
    (onTimer hw s).2.minSet = (onTimerProcess hw s).2.2 := by
  unfold onTimer
  rw [hs]
  exact ⟨rfl, rfl, rfl, rfl, rfl⟩

/-- The step counter after a run of invocations, by the parity of their number. -/
theorem onTimerRun_status (ticks : List TimerTick) :
    ∀ (s : SensorModuleState), s.status ≤ 1 →
      (onTimerRun ticks s).status = (ticks.length + s.status) % 2 := by
  induction ticks with
  | nil =>
    intro s hs
    show s.status = (0 + s.status) % 2
    omega
  | cons t rest ih =>
    intro s hs
    have hst : (tickEntry t s).status = s.status := rfl
    have hrun : onTimerRun (t :: rest) s = onTimerRun rest (onTimer t.hw (tickEntry t s)).1 := rfl
    rw [hrun, List.length_cons]
    rcases Nat.le_one_iff_eq_zero_or_eq_one.mp hs with h0 | h1
    · have h := (onTimer_step_start t.hw (tickEntry t s) (hst.trans h0)).1
      have hnew : (onTimer t.hw (tickEntry t s)).1.status = 1 := by rw [h]
      rw [ih _ (by rw [hnew]), hnew, h0]
    · have h := (onTimer_step_process t.hw (tickEntry t s) (hst.trans h1)).1
      have hnew : (onTimer t.hw (tickEntry t s)).1.status = 0 := by rw [h]; rfl
      rw [ih _ (by rw [hnew]; omega), hnew, h1]
      omega

/-- The effects of invocation `j + 1` and the state it leaves, in terms of the
state the first `j` invocations leave. -/
theorem onTimerSeq_get (ticks : List TimerTick) :
    ∀ (s : SensorModuleState) (j : Nat) (t : TimerTick), ticks[j]? = some t →
      (onTimerSeq ticks s)[j]? =
        some (onTimer t.hw (tickEntry t (onTimerRun (ticks.take j) s))).2 ∧
      onTimerRun (ticks.take (j + 1)) s =
        (onTimer t.hw (tickEntry t (onTimerRun (ticks.take j) s))).1 := by
  induction ticks with
  | nil => intro s j t ht; simp at ht
  | cons x rest ih =>
    intro s j t ht
    cases j with
    | zero =>
      simp only [List.getElem?_cons_zero, Option.some.injEq] at ht
      subst ht
      refine ⟨?_, rfl⟩
      simp only [onTimerSeq, List.getElem?_cons_zero]
      rfl
    | succ j =>
      simp only [List.getElem?_cons_succ] at ht
      obtain ⟨h1, h2⟩ := ih (onTimer x.hw (tickEntry x s)).1 j t ht
      have e1 : onTimerRun (List.take (j + 1) (x :: rest)) s =
          onTimerRun (List.take j rest) (onTimer x.hw (tickEntry x s)).1 := rfl
      have e2 : onTimerRun (List.take (j + 1 + 1) (x :: rest)) s =
          onTimerRun (List.take (j + 1) rest) (onTimer x.hw (tickEntry x s)).1 := rfl
      rw [e1, e2]
      simp only [onTimerSeq, List.getElem?_cons_succ]
      exact ⟨h1, h2⟩

/-- Every `onTimer` invocation leaves one entry in the list of effects. -/
theorem onTimerSeq_length (ticks : List TimerTick) :
    ∀ (s : SensorModuleState), (onTimerSeq ticks s).length = ticks.length := by
  induction ticks with
  | nil => intro s; rfl
  | cons x rest ih =>
    intro s
    simp only [onTimerSeq, List.length_cons, ih]

/-- C18: from a state with the step counter at 0 (its start-up value), whatever
the settings, the interrupts served in between and the peripheral answers, the
invocations of `onTimer` alternate strictly.  Position `j` of the list is
invocation number `j + 1`, `s0` is the module state on entry of that invocation
and `s1` the state it leaves.  Invocation number `2k+1` finds the counter at 0
and only calls `PIOS_Linesensor_start`: no frame, no save, and the state changes
in the device and the counter only.  Invocation number `2k+2` finds the counter
at 1, calls `PIOS_Linesensor_read` on the device as it is then, runs the
calibration of the mode in force on the readings just taken, normalises them
with the calibrated bounds, classifies the track, computes the position,
publishes exactly this frame and sets the counter back to 0. -/
theorem C18_strict_alternation (ticks : List TimerTick) (s : SensorModuleState)
    (hs : s.status = 0) :
    (onTimerSeq ticks s).length = ticks.length ∧
    ∀ (j : Nat) (t : TimerTick) (e : SensorModuleEffects) (s0 s1 : SensorModuleState),
      ticks[j]? = some t → (onTimerSeq ticks s)[j]? = some e →
      s0 = tickEntry t (onTimerRun (ticks.take j) s) →
      s1 = onTimerRun (ticks.take (j + 1)) s →
      (j % 2 = 0 →
        s0.status = 0 ∧ e.calls = [DriverCall.start] ∧ e.published = none ∧
        e.maxSet = none ∧ e.minSet = none ∧
        s1 = { s0 with dev := PIOS_Linesensor_start t.hw s0.dev, status := 1 }) ∧
      (j % 2 = 1 →
        s0.status = 1 ∧ e.calls = [DriverCall.read] ∧ e.published = some s1.sensorData ∧
        s1.sensorData.rawsensors =
          (PIOS_Linesensor_read t.hw s0.sensorData.rawsensors s0.dev).1 ∧
        s1.dev = (PIOS_Linesensor_read t.hw s0.sensorData.rawsensors s0.dev).2 ∧
        (s1.calibrationSaved, s1.max, s1.min, e.maxSet, e.minSet) =
          calibrate s0.settings s1.sensorData.rawsensors s0.calibrationSaved s0.max s0.min ∧
        s1.sensorData.max = s1.max ∧ s1.sensorData.min = s1.min ∧
        (∀ i, s1.sensorData.sensors i =
          (F32.ofNat (s1.sensorData.rawsensors i) - s1.min) * (1 / (s1.max - s1.min))) ∧
        s1.sensorData.TrackStatus =
          trackStatus (frameN2 s1.sensorData) s0.settings.TrackTreshold.Warning
            s0.settings.TrackTreshold.Lost ∧
        s1.sensorData.value =
          (frameN1 s1.sensorData / frameN2 s1.sensorData - 5 / 2) * s0.settings.range +
            s0.settings.offset ∧
        s1.status = 0 ∧ s1.settings = s0.settings) := by
  refine ⟨onTimerSeq_length ticks s, fun j t e s0 s1 ht he hs0 hs1 => ?_⟩
  obtain ⟨g1, g2⟩ := onTimerSeq_get ticks s j t ht
  rw [g1, Option.some.injEq] at he
  rw [g2, ← hs0] at hs1
  rw [← hs0] at he
  have hj : j < ticks.length := by
    by_contra hn
    rw [List.getElem?_eq_none (Nat.le_of_not_lt hn)] at ht
    exact Option.noConfusion ht
  have hst : s0.status = j % 2 := by
    have h := onTimerRun_status (ticks.take j) s (by rw [hs]; exact Nat.zero_le _)
    rw [List.length_take, Nat.min_eq_left (Nat.le_of_lt hj), hs, Nat.add_zero] at h
    rw [hs0]
    exact h
  constructor
  · intro hpar
    have h0 : s0.status = 0 := by rw [hst, hpar]
    obtain ⟨n1, n2, n3, n4, n5⟩ := onTimer_step_start t.hw s0 h0
    subst he
    exact ⟨h0, n2, n3, n4, n5, hs1.trans n1⟩
  · intro hpar
    have h1 : s0.status = 1 := by rw [hst, hpar]
    obtain ⟨n1, n2, n3, n4, n5⟩ := onTimer_step_process t.hw s0 h1
    obtain ⟨f1, f2, f3, f4, f5, f6⟩ := onTimerProcess_frame t.hw s0
    have hs1' : s1 = (onTimerProcess t.hw s0).1 := hs1.trans n1
    subst he
    subst hs1'
    refine ⟨h1, n2, n3, f1, rfl, ?_, f2, f3, f4, f5, f6, rfl, rfl⟩
    rw [n4, n5, f1]
    rfl

/-- Witness for C18: the four sample invocations from the start-up state.  The
first and the third only start an acquisition; the second publishes the timing
736 (`(200 - 65000) mod 2^16`) captured on channel 0 by the interrupt served
before it, the fourth the sentinel, no line having fallen. -/
theorem C18_strict_alternation_witness :
    moduleStart.status = 0 ∧
    (onTimerSeq ticksSample moduleStart).map (fun e => e.calls) =
      [[DriverCall.start], [DriverCall.read], [DriverCall.start], [DriverCall.read]] ∧
    (onTimerSeq ticksSample moduleStart).map
      (fun e => e.published.map (fun f => f.rawsensors 0)) =
      [none, some 736, none, some 65535] ∧
    ∀ e, (onTimerSeq ticksSample moduleStart)[1]? = some e →
      e.calls = [DriverCall.read] ∧
      e.published = some (onTimerRun (ticksSample.take 2) moduleStart).sensorData :=
  ⟨rfl, by decide, by decide,
   fun e he =>
    ⟨(((C18_strict_alternation ticksSample moduleStart rfl).2 1
        { interrupts := [hwLow01], settings := settingsManual 900 100, hw := hwHigh } e
        _ _ rfl he rfl rfl).2 rfl).2.1,
     (((C18_strict_alternation ticksSample moduleStart rfl).2 1
        { interrupts := [hwLow01], settings := settingsManual 900 100, hw := hwHigh } e
        _ _ rfl he rfl rfl).2 rfl).2.2.1⟩⟩

/-- One edge interrupt on a device that carries the magic and is in phase
`ACQ_TIMING`: the device it leaves, channel by channel. -/
theorem extInt_acq_spec (hw : Hw) (d : pios_linesensor_dev_t)
    (hm : d.magic = PIOS_LINESENSOR_DEV_MAGIC)
    (hf : d.fsm_status = PIOS_LINESENSOR_ACQ_TIMING) :
    ∃ d', (PIOS_Linesensor_EXT_Int hw (some d)).1 = some d' ∧
      d'.magic = PIOS_LINESENSOR_DEV_MAGIC ∧
      d'.fsm_status = PIOS_LINESENSOR_ACQ_TIMING ∧
      ∀ i, (d.status i = false → hw.pin i = Bit_RESET →
          d'.status i = true ∧
          d'.timings i = toU16 ((hw.counter i : Int) - (d.timings i : Int))) ∧
        (d.status i = false → hw.pin i ≠ Bit_RESET →
          d'.status i = false ∧ d'.timings i = d.timings i) := by
  have hv : linesensor_validate (some d) = true := by simp [linesensor_validate, hm]
  obtain ⟨k1, k2, _, _, k5⟩ := extInt_foldl_spec hw _ d finRange_nodup_all.1
  refine ⟨(List.finRange NUM_SENSOR).foldl (extIntBody hw) d,
    by simp [PIOS_Linesensor_EXT_Int, hv, hf], k1.trans hm, k2.trans hf, fun i => ⟨?_, ?_⟩⟩
  · intro hs hp
    rw [(k5 i).1, (k5 i).2]
    simp [hs, hp, finRange_nodup_all.2 i]
  · intro hs hp
    rw [(k5 i).1, (k5 i).2]
    simp [hs, hp]

/-- A captured channel keeps its flag and timing under a sequence of edge
interrupts. -/
theorem extIntSeq_keeps_captured (hws : List Hw) :
    ∀ (d : pios_linesensor_dev_t) (i : Fin NUM_SENSOR), d.status i = true →
    ∃ d', extIntSeq hws (some d) = some d' ∧
      d'.status i = true ∧ d'.timings i = d.timings i := by
  induction hws with
  | nil => intro d i hi; exact ⟨d, rfl, hi, rfl⟩
  | cons hw hws ih =>
    intro d i hi
    obtain ⟨d1, h1, h2⟩ := extInt_keeps_captured hw d
    obtain ⟨d2, h3, h4, h5⟩ := ih d1 i (h2 i hi).1
    refine ⟨d2, ?_, h4, h5.trans (h2 i hi).2⟩
    simp only [extIntSeq, List.foldl_cons, h1]
    exact h3

/-- A sequence of edge interrupts in phase `ACQ_TIMING` on a channel that is not
yet captured: the channel is captured at the first interrupt at which its pin
reads low, with the counter read there, and stays uncaptured if there is none. -/
theorem extIntSeq_first_low (i : Fin NUM_SENSOR) (hws : List Hw) :
    ∀ (d : pios_linesensor_dev_t), d.magic = PIOS_LINESENSOR_DEV_MAGIC →
      d.fsm_status = PIOS_LINESENSOR_ACQ_TIMING → d.status i = false →
    ∃ d', extIntSeq hws (some d) = some d' ∧
      (∀ hwk, hws.find? (fun hw => decide (hw.pin i = Bit_RESET)) = some hwk →
        d'.status i = true ∧
        d'.timings i = toU16 ((hwk.counter i : Int) - (d.timings i : Int))) ∧
      (hws.find? (fun hw => decide (hw.pin i = Bit_RESET)) = none →
        d'.status i = false ∧ d'.timings i = d.timings i) := by
  induction hws with
  | nil =>
    intro d _ _ hs
    exact ⟨d, rfl, fun hwk h => by simp at h, fun _ => ⟨hs, rfl⟩⟩
  | cons hw hws ih =>
    intro d hm hf hs
    obtain ⟨d1, e1, m1, f1, c1⟩ := extInt_acq_spec hw d hm hf
    have hseq : extIntSeq (hw :: hws) (some d) = extIntSeq hws (some d1) := by
      simp only [extIntSeq, List.foldl_cons, e1]
    by_cases hp : hw.pin i = Bit_RESET
    · obtain ⟨s1, t1⟩ := (c1 i).1 hs hp
      obtain ⟨d2, e2, s2, t2⟩ := extIntSeq_keeps_captured hws d1 i s1
      refine ⟨d2, hseq.trans e2, fun hwk h => ?_, fun h => ?_⟩
      · have hk : hwk = hw := by
          simp only [List.find?_cons, hp, decide_True, Option.some.injEq] at h
          exact h.symm
        rw [hk]
        exact ⟨s2, t2.trans t1⟩
      · simp [List.find?_cons, hp] at h
    · obtain ⟨s1, t1⟩ := (c1 i).2 hs hp
      obtain ⟨d2, e2, a2, b2⟩ := ih d1 m1 f1 s1
      have hfind : (hw :: hws).find? (fun hw => decide (hw.pin i = Bit_RESET)) =
          hws.find? (fun hw => decide (hw.pin i = Bit_RESET)) := by
        simp [List.find?_cons, hp]
      rw [hfind, ← t1]
      exact ⟨d2, hseq.trans e2, a2, b2⟩

/-- C21: on an initialised device, `PIOS_Linesensor_start` with the counter
reading `c0` for channel `i`, then any finite sequence of edge interrupts, then
`PIOS_Linesensor_read`: the value read for channel `i` is `(ck - c0) mod 2^16`,
`ck` being the counter read at the first interrupt at which the pin of channel
`i` read low, and `0xFFFF` if it read low at none; so for a 16-bit counter that
stood at `T0 mod 2^16` at the start and at `(T0 + E) mod 2^16` at that
interrupt, with `E < 65536` ticks elapsed, the value read is `E`, wrapped
counter or not. -/
theorem C21_cycle_reports_discharge_time (hw0 : Hw) (hws : List Hw) (hwr : Hw)
    (readout : Fin NUM_SENSOR → Nat) (d : pios_linesensor_dev_t) (i : Fin NUM_SENSOR)
    (hm : d.magic = PIOS_LINESENSOR_DEV_MAGIC) :
    ∃ d', extIntSeq hws (some (PIOS_Linesensor_start hw0 d)) = some d' ∧
      (∀ hwk, hws.find? (fun hw => decide (hw.pin i = Bit_RESET)) = some hwk →
        (PIOS_Linesensor_read hwr readout d').1 i =
          (((hwk.counter i : Int) - (hw0.counter i : Int)) % 2 ^ 16).toNat ∧
        ∀ T0 E : Nat, E < 65536 → hw0.counter i = T0 % 65536 →
          hwk.counter i = (T0 + E) % 65536 →
          (PIOS_Linesensor_read hwr readout d').1 i = E) ∧
      (hws.find? (fun hw => decide (hw.pin i = Bit_RESET)) = none →
        (PIOS_Linesensor_read hwr readout d').1 i = 0xFFFF) := by
  obtain ⟨s1, s2, s3, s4⟩ :=
    setOutputs_false_spec hw0 { d with fsm_status := PIOS_LINESENSOR_ACQ_TIMING }
  obtain ⟨d', e1, a1, b1⟩ := extIntSeq_first_low i hws (PIOS_Linesensor_start hw0 d)
    (s1.trans hm) s2 (s3 i)
  have ht : (PIOS_Linesensor_start hw0 d).timings i = hw0.counter i % 65536 := s4 i
  refine ⟨d', e1, fun hwk hk => ?_, fun hn => ?_⟩
  · obtain ⟨st, tm⟩ := a1 hwk hk
    have hval : (PIOS_Linesensor_read hwr readout d').1 i =
        (((hwk.counter i : Int) - (hw0.counter i : Int)) % 2 ^ 16).toNat := by
      rw [read_entry, st, tm, ht]
      simp only [if_true, toU16]
      norm_num
      omega
    refine ⟨hval, fun T0 E hE h0 hke => ?_⟩
    rw [hval, h0, hke]
    norm_num
    omega
  · obtain ⟨st, _⟩ := b1 hn
    rw [read_entry, st]
    rfl

/-- Witness for C21: the sample device started with the counter at 65000, one
interrupt with all lines high, then one with lines 0 and 1 low and the counter
at 200 (wrapped): channel 0 reads `(200 - 65000) mod 2^16 = 736`, channel 2,
whose line never read low, reads the sentinel. -/
theorem C21_cycle_reports_discharge_time_witness :
    devMeasuring.magic = PIOS_LINESENSOR_DEV_MAGIC ∧
    (∃ d', extIntSeq [hwHigh, hwLow01] (some (PIOS_Linesensor_start hwHigh devMeasuring)) =
        some d' ∧
      (∀ hwk, [hwHigh, hwLow01].find? (fun hw => decide (hw.pin 0 = Bit_RESET)) = some hwk →
        (PIOS_Linesensor_read hwHigh (fun _ => 0) d').1 0 =
          (((hwk.counter 0 : Int) - (hwHigh.counter 0 : Int)) % 2 ^ 16).toNat ∧
        ∀ T0 E : Nat, E < 65536 → hwHigh.counter 0 = T0 % 65536 →
          hwk.counter 0 = (T0 + E) % 65536 →
          (PIOS_Linesensor_read hwHigh (fun _ => 0) d').1 0 = E) ∧
      ([hwHigh, hwLow01].find? (fun hw => decide (hw.pin 0 = Bit_RESET)) = none →
        (PIOS_Linesensor_read hwHigh (fun _ => 0) d').1 0 = 0xFFFF)) ∧
    (extIntSeq [hwHigh, hwLow01] (some (PIOS_Linesensor_start hwHigh devMeasuring))).map
      (fun d' => ((PIOS_Linesensor_read hwHigh (fun _ => 0) d').1 0,
        (PIOS_Linesensor_read hwHigh (fun _ => 0) d').1 2)) = some (736, 0xFFFF) :=
  ⟨rfl, C21_cycle_reports_discharge_time hwHigh [hwHigh, hwLow01] hwHigh (fun _ => 0)
    devMeasuring 0 rfl, by decide⟩

/-! ## Theorems: the follower task -/

/-- The blocks before the actuation leave the state machine variables alone. -/
theorem stepFrame_stepSettings_spec {P : Type} (lib : PidLib P) (e : LoopEnv)
    (s : TaskState P) :
    (stepFrame lib e (stepSettings lib e s)).status.Status = s.status.Status ∧
    (stepFrame lib e (stepSettings lib e s)).arming = s.arming ∧
    (stepFrame lib e (stepSettings lib e s)).armingTimer = s.armingTimer ∧
    (stepFrame lib e (stepSettings lib e s)).currentstatus = s.currentstatus ∧
    (stepFrame lib e (stepSettings lib e s)).controlupdated = s.controlupdated ∧
    (stepFrame lib e (stepSettings lib e s)).settings =
      (if s.settingsupdated then e.LineFollowerSettingsGet else s.settings) := by
  unfold stepFrame stepSettings
  cases s.settingsupdated <;> cases e.xQueueReceive <;> simp

/-- The threshold computed from a whole number of seconds that fits `uint32_t`
after the multiplication. -/
theorem startDelayThreshold_natCast (D : Nat) (hD : D * 1000000 < 2 ^ 32) :
    startDelayThreshold (D : ℚ) = D * 1000000 := by
  have h1 : D < 2 ^ 32 := by omega
  simp only [startDelayThreshold, Int.floor_natCast, Int.toNat_ofNat]
  rw [Nat.mod_eq_of_lt h1, Nat.mod_eq_of_lt hD]

/-- C5: in every loop iteration of `lineFollowerTask` the yaw rate is written to
the actuation sink (`RateDesiredYawSet`) exactly when `Status` is `RUN` at the
test, which is the `Status` the iteration started with; with `Status` `IDLE` or
`ARMING` nothing is written. -/
theorem C5_actuation_gated_by_run {P : Type} (lib : PidLib P) (e : LoopEnv)
    (s : TaskState P) :
    (stepFrame lib e (stepSettings lib e s)).status.Status = s.status.Status ∧
    ((lineFollowerTask lib e s).2.isSome = true ↔
      s.status.Status = LINEFOLLOWERSTATUS_STATUS_RUN) ∧
    (s.status.Status = LINEFOLLOWERSTATUS_STATUS_RUN →
      (lineFollowerTask lib e s).2 = some (stepFrame lib e (stepSettings lib e s)).yawrate) ∧
    (s.status.Status = LINEFOLLOWERSTATUS_STATUS_IDLE ∨
      s.status.Status = LINEFOLLOWERSTATUS_STATUS_ARMING →
      (lineFollowerTask lib e s).2 = none) := by
  have h := (stepFrame_stepSettings_spec lib e s).1
  refine ⟨h, ?_, ?_, ?_⟩
  · simp only [lineFollowerTask, stepActuate, h]
    by_cases hr : s.status.Status = LINEFOLLOWERSTATUS_STATUS_RUN <;> simp [hr]
  · intro hr
    simp only [lineFollowerTask, stepActuate, h, hr, if_true]
  · intro hr
    have hne : s.status.Status ≠ LINEFOLLOWERSTATUS_STATUS_RUN := by
      rcases hr with hr | hr <;> rw [hr] <;> decide
    simp only [lineFollowerTask, stepActuate, h, hne, if_false]

/-- Witness for C5: an iteration entered with `Status = RUN` writes the sink, an
iteration entered with `Status = IDLE` does not. -/
theorem C5_actuation_gated_by_run_witness :
    (lineFollowerTask pidNone (envAt 1 LINEFOLLOWERCONTROL_COMMAND_IDLE 0)
      { taskStart 1 with status := { Status := LINEFOLLOWERSTATUS_STATUS_RUN, yawrate := 0,
                                      throttle := 0, dT := 0 } }).2.isSome = true ∧
    (lineFollowerTask pidNone (envAt 1 LINEFOLLOWERCONTROL_COMMAND_IDLE 0)
      (taskStart 1)).2 = none :=
  ⟨(C5_actuation_gated_by_run pidNone _ _).2.1.mpr rfl,
   (C5_actuation_gated_by_run pidNone _ _).2.2.2 (Or.inl rfl)⟩

/-- C2 (evaluation at the failing input): the task is entered with a start
delay of 1 s; the iteration at clock 1000 µs processes the command `RUN` and
publishes `ARMING`; the next iteration, at clock 1001001 µs, processes the
command `STOP` and publishes `RUN`, not `IDLE`: the `STOP` case sets `Status` to
`IDLE` but leaves `arming` set, and the arming test that follows overwrites it. -/
theorem C2_stop_while_arming_publishes_run :
    publishedStatus pidNone (envAt 1 LINEFOLLOWERCONTROL_COMMAND_RUN 1000) (taskStart 1) =
      LINEFOLLOWERSTATUS_STATUS_ARMING ∧
    publishedStatus pidNone (envAt 1 LINEFOLLOWERCONTROL_COMMAND_STOP 1001001)
      (lfcontrolcb (lineFollowerTask pidNone (envAt 1 LINEFOLLOWERCONTROL_COMMAND_RUN 1000)
        (taskStart 1)).1) = LINEFOLLOWERSTATUS_STATUS_RUN ∧
    publishedStatus pidNone (envAt 1 LINEFOLLOWERCONTROL_COMMAND_IDLE 1001001)
      (lfcontrolcb (lineFollowerTask pidNone (envAt 1 LINEFOLLOWERCONTROL_COMMAND_RUN 1000)
        (taskStart 1)).1) = LINEFOLLOWERSTATUS_STATUS_RUN := by
  decide

/-- C4 (evaluation at the failing input): the task is entered with a start
delay of 1 s; `RUN` is processed at clock 1000 µs, the iteration at clock
1001001 µs publishes `RUN` with the arming timer at 1000; a second `RUN`
command processed at clock 3000000 µs publishes `ARMING` and moves the arming
timer to 3000000: `currentstatus`, which the guard tests, is never assigned. -/
theorem C4_run_while_running_rearms :
    (runTask pidNone [envAt 1 LINEFOLLOWERCONTROL_COMMAND_RUN 1000,
        envAt 1 LINEFOLLOWERCONTROL_COMMAND_RUN 1001001] (taskStart 1)).status.Status =
      LINEFOLLOWERSTATUS_STATUS_RUN ∧
    (runTask pidNone [envAt 1 LINEFOLLOWERCONTROL_COMMAND_RUN 1000,
        envAt 1 LINEFOLLOWERCONTROL_COMMAND_RUN 1001001] (taskStart 1)).armingTimer = 1000 ∧
    (lineFollowerTask pidNone (envAt 1 LINEFOLLOWERCONTROL_COMMAND_RUN 3000000)
      (lfcontrolcb (runTask pidNone [envAt 1 LINEFOLLOWERCONTROL_COMMAND_RUN 1000,
        envAt 1 LINEFOLLOWERCONTROL_COMMAND_RUN 1001001] (taskStart 1)))).1.status.Status =
      LINEFOLLOWERSTATUS_STATUS_ARMING ∧
    (lineFollowerTask pidNone (envAt 1 LINEFOLLOWERCONTROL_COMMAND_RUN 3000000)
      (lfcontrolcb (runTask pidNone [envAt 1 LINEFOLLOWERCONTROL_COMMAND_RUN 1000,
        envAt 1 LINEFOLLOWERCONTROL_COMMAND_RUN 1001001] (taskStart 1)))).1.armingTimer =
      3000000 := by
  decide

/-- The last two blocks of an iteration, entered in the running state with no
command pending. -/
theorem tail_run_stays {P : Type} (e : LoopEnv) (s : TaskState P)
    (ha : s.arming = false) (hs : s.status.Status = LINEFOLLOWERSTATUS_STATUS_RUN)
    (hc : s.controlupdated = false) :
    (stepArming e (stepControl e s)).arming = false ∧
    (stepArming e (stepControl e s)).status.Status = LINEFOLLOWERSTATUS_STATUS_RUN ∧
    (stepArming e (stepControl e s)).controlupdated = false := by
  simp [stepControl, stepArming, hc, ha, hs]

/-- The last two blocks of an iteration, entered while arming with no command
pending. -/
theorem tail_arming_step {P : Type} (e : LoopEnv) (s : TaskState P)
    (ha : s.arming = true) (hs : s.status.Status = LINEFOLLOWERSTATUS_STATUS_ARMING)
    (hc : s.controlupdated = false) :
    (stepArming e (stepControl e s)).controlupdated = false ∧
    (stepArming e (stepControl e s)).settings = s.settings ∧
    (stepArming e (stepControl e s)).armingTimer = s.armingTimer ∧
    (e.PIOS_DELAY_GetuSSince s.armingTimer ≤ startDelayThreshold s.settings.StartDelay →
      (stepArming e (stepControl e s)).arming = true ∧
      (stepArming e (stepControl e s)).status.Status = LINEFOLLOWERSTATUS_STATUS_ARMING) ∧
    (startDelayThreshold s.settings.StartDelay < e.PIOS_DELAY_GetuSSince s.armingTimer →
      (stepArming e (stepControl e s)).arming = false ∧
      (stepArming e (stepControl e s)).status.Status = LINEFOLLOWERSTATUS_STATUS_RUN) := by
  by_cases hlt : startDelayThreshold s.settings.StartDelay <
      e.PIOS_DELAY_GetuSSince s.armingTimer
  · simp [stepControl, stepArming, hc, ha, hlt, not_le.mpr hlt]
  · simp [stepControl, stepArming, hc, ha, hs, hlt, not_lt.mp hlt]

/-- The last two blocks of the iteration that processes the command `RUN`, with
`currentstatus` at `IDLE`. -/
theorem tail_run_command {P : Type} (e : LoopEnv) (s : TaskState P)
    (hcur : s.currentstatus = LINEFOLLOWERSTATUS_STATUS_IDLE)
    (hc : s.controlupdated = true)
    (hcmd : e.LineFollowerControlGet.Command = LINEFOLLOWERCONTROL_COMMAND_RUN) :
    (stepArming e (stepControl e s)).controlupdated = false ∧
    (stepArming e (stepControl e s)).settings = s.settings ∧
    (stepArming e (stepControl e s)).armingTimer = e.PIOS_DELAY_GetRaw ∧
    (e.PIOS_DELAY_GetuSSince e.PIOS_DELAY_GetRaw ≤ startDelayThreshold s.settings.StartDelay →
      (stepArming e (stepControl e s)).arming = true ∧
      (stepArming e (stepControl e s)).status.Status = LINEFOLLOWERSTATUS_STATUS_ARMING) ∧
    (startDelayThreshold s.settings.StartDelay < e.PIOS_DELAY_GetuSSince e.PIOS_DELAY_GetRaw →
      (stepArming e (stepControl e s)).arming = false ∧
      (stepArming e (stepControl e s)).status.Status = LINEFOLLOWERSTATUS_STATUS_RUN) := by
  by_cases hlt : startDelayThreshold s.settings.StartDelay <
      e.PIOS_DELAY_GetuSSince e.PIOS_DELAY_GetRaw
  · simp [stepControl, stepArming, hc, hcmd, hcur, hlt, not_le.mpr hlt]
  · simp [stepControl, stepArming, hc, hcmd, hcur, hlt, not_lt.mp hlt]

/-- An iteration entered in the running state with no command pending stays there. -/
theorem task_run_stays {P : Type} (lib : PidLib P) (e : LoopEnv) (s : TaskState P)
    (ha : s.arming = false) (hs : s.status.Status = LINEFOLLOWERSTATUS_STATUS_RUN)
    (hc : s.controlupdated = false) :
    (lineFollowerTask lib e s).1.arming = false ∧
    (lineFollowerTask lib e s).1.status.Status = LINEFOLLOWERSTATUS_STATUS_RUN ∧
    (lineFollowerTask lib e s).1.controlupdated = false := by
  obtain ⟨h1, h2, _, _, h5, _⟩ := stepFrame_stepSettings_spec lib e s
  exact tail_run_stays e _ (h2.trans ha) (h1.trans hs) (h5.trans hc)

/-- An iteration entered while arming with no command pending: it keeps arming
up to the threshold and switches to `RUN` beyond it. -/
theorem task_arming_step {P : Type} (lib : PidLib P) (e : LoopEnv) (s : TaskState P)
    (D : ℚ) (ha : s.arming = true)
    (hs : s.status.Status = LINEFOLLOWERSTATUS_STATUS_ARMING)
    (hc : s.controlupdated = false) (hd : s.settings.StartDelay = D)
    (he : e.LineFollowerSettingsGet.StartDelay = D) :
    (lineFollowerTask lib e s).1.controlupdated = false ∧
    (lineFollowerTask lib e s).1.settings.StartDelay = D ∧
    (lineFollowerTask lib e s).1.armingTimer = s.armingTimer ∧
    (e.PIOS_DELAY_GetuSSince s.armingTimer ≤ startDelayThreshold D →
      (lineFollowerTask lib e s).1.arming = true ∧
      (lineFollowerTask lib e s).1.status.Status = LINEFOLLOWERSTATUS_STATUS_ARMING) ∧
    (startDelayThreshold D < e.PIOS_DELAY_GetuSSince s.armingTimer →
      (lineFollowerTask lib e s).1.arming = false ∧
      (lineFollowerTask lib e s).1.status.Status = LINEFOLLOWERSTATUS_STATUS_RUN) := by
  obtain ⟨h1, h2, h3, _, h5, h6⟩ := stepFrame_stepSettings_spec lib e s
  have h7 : (stepFrame lib e (stepSettings lib e s)).settings.StartDelay = D := by
    rw [h6]; split <;> assumption
  obtain ⟨k1, k2, k3, k4, k5⟩ := tail_arming_step e _ (h2.trans ha) (h1.trans hs) (h5.trans hc)
  rw [h7, h3] at k4 k5
  exact ⟨k1, by rw [← h7]; exact congrArg _ k2, k3.trans h3, k4, k5⟩

/-- The iteration that processes the command `RUN` (with `currentstatus` at its
only value `IDLE`): the arming timer is taken, and the arming test of the same
iteration decides between `ARMING` and `RUN`. -/
theorem task_run_command {P : Type} (lib : PidLib P) (e : LoopEnv) (s : TaskState P)
    (D : ℚ) (hcur : s.currentstatus = LINEFOLLOWERSTATUS_STATUS_IDLE)
    (hc : s.controlupdated = true)
    (hcmd : e.LineFollowerControlGet.Command = LINEFOLLOWERCONTROL_COMMAND_RUN)
    (hd : s.settings.StartDelay = D)
    (he : e.LineFollowerSettingsGet.StartDelay = D) :
    (lineFollowerTask lib e s).1.controlupdated = false ∧
    (lineFollowerTask lib e s).1.settings.StartDelay = D ∧
    (lineFollowerTask lib e s).1.armingTimer = e.PIOS_DELAY_GetRaw ∧
    (e.PIOS_DELAY_GetuSSince e.PIOS_DELAY_GetRaw ≤ startDelayThreshold D →
      (lineFollowerTask lib e s).1.arming = true ∧
      (lineFollowerTask lib e s).1.status.Status = LINEFOLLOWERSTATUS_STATUS_ARMING) ∧
    (startDelayThreshold D < e.PIOS_DELAY_GetuSSince e.PIOS_DELAY_GetRaw →
      (lineFollowerTask lib e s).1.arming = false ∧
      (lineFollowerTask lib e s).1.status.Status = LINEFOLLOWERSTATUS_STATUS_RUN) := by
  obtain ⟨_, _, _, h4, h5, h6⟩ := stepFrame_stepSettings_spec lib e s
  have h7 : (stepFrame lib e (stepSettings lib e s)).settings.StartDelay = D := by
    rw [h6]; split <;> assumption
  obtain ⟨k1, k2, k3, k4, k5⟩ := tail_run_command e _ (h4.trans hcur) (h5.trans hc) hcmd
  rw [h7] at k4 k5
  exact ⟨k1, by rw [← h7]; exact congrArg _ k2, k3, k4, k5⟩

/-- From the running state with no command pending every iteration publishes `RUN`. -/
theorem publishedStatuses_run {P : Type} (lib : PidLib P) (es : List LoopEnv) :
    ∀ (s : TaskState P), s.arming = false →
      s.status.Status = LINEFOLLOWERSTATUS_STATUS_RUN → s.controlupdated = false →
      publishedStatuses lib es s = es.map (fun _ => LINEFOLLOWERSTATUS_STATUS_RUN) := by
  induction es with
  | nil => intro s _ _ _; rfl
  | cons e es ih =>
    intro s ha hs hc
    obtain ⟨h1, h2, h3⟩ := task_run_stays lib e s ha hs hc
    simp only [publishedStatuses, List.map_cons, publishedStatus, h2, ih _ h1 h2 h3]

/-- While arming, with no command pending and a clock that does not run
backwards, each iteration publishes `ARMING` up to the threshold and `RUN` beyond. -/
theorem publishedStatuses_arming {P : Type} (lib : PidLib P) (D : ℚ) (t0 : Nat)
    (es : List LoopEnv) :
    ∀ (s : TaskState P), s.arming = true → s.armingTimer = t0 →
      s.status.Status = LINEFOLLOWERSTATUS_STATUS_ARMING → s.controlupdated = false →
      s.settings.StartDelay = D →
      (∀ e ∈ es, e.LineFollowerSettingsGet.StartDelay = D) →
      es.Pairwise (fun a b => a.PIOS_DELAY_GetuSSince t0 ≤ b.PIOS_DELAY_GetuSSince t0) →
      publishedStatuses lib es s = es.map (fun e =>
        if e.PIOS_DELAY_GetuSSince t0 ≤ startDelayThreshold D
        then LINEFOLLOWERSTATUS_STATUS_ARMING else LINEFOLLOWERSTATUS_STATUS_RUN) := by
  induction es with
  | nil => intro s _ _ _ _ _ _ _; rfl
  | cons e es ih =>
    intro s ha ht hs hc hd hset hmono
    obtain ⟨k1, k2, k3, k4, k5⟩ := task_arming_step lib e s D ha hs hc hd
      (hset e (List.mem_cons_self _ _))
    rw [ht] at k3 k4 k5
    obtain ⟨hfirst, hrest⟩ := List.pairwise_cons.mp hmono
    simp only [publishedStatuses, List.map_cons, publishedStatus]
    by_cases hle : e.PIOS_DELAY_GetuSSince t0 ≤ startDelayThreshold D
    · rw [(k4 hle).2, if_pos hle,
        ih _ (k4 hle).1 k3 (k4 hle).2 k1 k2 (fun x hx => hset x (List.mem_cons_of_mem _ hx)) hrest]
    · have hlt := not_le.mp hle
      rw [(k5 hlt).2, if_neg hle, publishedStatuses_run lib es _ (k5 hlt).1 (k5 hlt).2 k1]
      congr 1
      refine List.map_congr_left (fun x hx => ?_)
      rw [if_neg (not_le.mpr (lt_of_lt_of_le hlt (hfirst x hx)))]

/-- C3 (counterexample): with a start delay of 1 s, `RUN` processed at clock
1000 µs, the iteration at which exactly 1000000 µs have elapsed still publishes
`ARMING` (the test is a strict `>`); with a start delay of 0.5 s the iteration
at which 1 µs has elapsed already publishes `RUN` (the cast truncates the delay
to 0 before the multiplication); with a start delay of 4295 s the iteration at
which 32705 µs have elapsed already publishes `RUN` (the product wraps in
`uint32_t`). -/
theorem C3_arming_delay_counterexample :
    publishedStatuses pidNone
      [envAt 1 LINEFOLLOWERCONTROL_COMMAND_RUN 1000,
       envAt 1 LINEFOLLOWERCONTROL_COMMAND_RUN 1001000] (taskStart 1) =
      [LINEFOLLOWERSTATUS_STATUS_ARMING, LINEFOLLOWERSTATUS_STATUS_ARMING] ∧
    publishedStatuses pidNone
      [envAt (1 / 2) LINEFOLLOWERCONTROL_COMMAND_RUN 1000,
       envAt (1 / 2) LINEFOLLOWERCONTROL_COMMAND_RUN 1001] (taskStart (1 / 2)) =
      [LINEFOLLOWERSTATUS_STATUS_ARMING, LINEFOLLOWERSTATUS_STATUS_RUN] ∧
    publishedStatuses pidNone
      [envAt 4295 LINEFOLLOWERCONTROL_COMMAND_RUN 1000,
       envAt 4295 LINEFOLLOWERCONTROL_COMMAND_RUN 33705] (taskStart 4295) =
      [LINEFOLLOWERSTATUS_STATUS_ARMING, LINEFOLLOWERSTATUS_STATUS_RUN] := by
  refine ⟨?_, ?_, ?_⟩
  · decide
  rotate_left
  · decide
  · have hthr : startDelayThreshold (1 / 2) = 0 := by norm_num [startDelayThreshold]
    obtain ⟨k1, k2, k3, k4, _⟩ := task_run_command pidNone
      (envAt (1 / 2) LINEFOLLOWERCONTROL_COMMAND_RUN 1000) (taskStart (1 / 2)) (1 / 2)
      rfl rfl rfl rfl rfl
    have ha := k4 (by rw [hthr]; decide)
    obtain ⟨_, _, _, _, m5⟩ := task_arming_step pidNone
      (envAt (1 / 2) LINEFOLLOWERCONTROL_COMMAND_RUN 1001) _ (1 / 2) ha.1 ha.2 k1 k2 rfl
    have hb := m5 (by rw [hthr, k3]; decide)
    simp only [publishedStatuses, publishedStatus, ha.2, hb.2]

/-- C3 (amended): the command `RUN` is processed in an iteration entered with
`Status = IDLE`, the start delay is a whole number `D` of seconds with
`D * 10^6 < 2^32`, no further command arrives and the clock does not run
backwards; then every iteration, the first included, at which at most
`D * 10^6` µs have elapsed since the arming timer was taken publishes `ARMING`,
and every iteration at which more have elapsed publishes `RUN`. -/
theorem C3_arming_delay_whole_seconds {P : Type} (lib : PidLib P) (D : Nat)
    (hD : D * 1000000 < 2 ^ 32) (e0 : LoopEnv) (es : List LoopEnv) (s : TaskState P)
    (_hidle : s.status.Status = LINEFOLLOWERSTATUS_STATUS_IDLE)
    (hcur : s.currentstatus = LINEFOLLOWERSTATUS_STATUS_IDLE)
    (hc : s.controlupdated = true)
    (hcmd : e0.LineFollowerControlGet.Command = LINEFOLLOWERCONTROL_COMMAND_RUN)
    (hd : s.settings.StartDelay = (D : ℚ))
    (hset : ∀ e ∈ e0 :: es, e.LineFollowerSettingsGet.StartDelay = (D : ℚ))
    (hmono : (e0 :: es).Pairwise (fun a b =>
      a.PIOS_DELAY_GetuSSince e0.PIOS_DELAY_GetRaw ≤
        b.PIOS_DELAY_GetuSSince e0.PIOS_DELAY_GetRaw)) :
    publishedStatuses lib (e0 :: es) s = (e0 :: es).map (fun e =>
      if e.PIOS_DELAY_GetuSSince e0.PIOS_DELAY_GetRaw ≤ D * 1000000
      then LINEFOLLOWERSTATUS_STATUS_ARMING else LINEFOLLOWERSTATUS_STATUS_RUN) := by
  obtain ⟨k1, k2, k3, k4, k5⟩ := task_run_command lib e0 s (D : ℚ) hcur hc hcmd hd
    (hset e0 (List.mem_cons_self _ _))
  obtain ⟨hfirst, hrest⟩ := List.pairwise_cons.mp hmono
  rw [startDelayThreshold_natCast D hD] at k4 k5
  simp only [publishedStatuses, List.map_cons, publishedStatus]
  by_cases hle : e0.PIOS_DELAY_GetuSSince e0.PIOS_DELAY_GetRaw ≤ D * 1000000
  · rw [(k4 hle).2, if_pos hle,
      publishedStatuses_arming lib (D : ℚ) e0.PIOS_DELAY_GetRaw es _ (k4 hle).1 k3 (k4 hle).2
        k1 k2 (fun x hx => hset x (List.mem_cons_of_mem _ hx)) hrest,
      startDelayThreshold_natCast D hD]
  · have hlt := not_le.mp hle
    rw [(k5 hlt).2, if_neg hle, publishedStatuses_run lib es _ (k5 hlt).1 (k5 hlt).2 k1]
    congr 1
    refine List.map_congr_left (fun x hx => ?_)
    rw [if_neg (not_le.mpr (lt_of_lt_of_le hlt (hfirst x hx)))]

/-- Witness for C3 (amended): start delay 1 s, `RUN` processed at clock 1000 µs,
further iterations 499000, 1000000, 1000001 and 1999000 µs later. -/
theorem C3_arming_delay_whole_seconds_witness :
    publishedStatuses pidNone
      [envAt 1 LINEFOLLOWERCONTROL_COMMAND_RUN 1000,
       envAt 1 LINEFOLLOWERCONTROL_COMMAND_RUN 500000,
       envAt 1 LINEFOLLOWERCONTROL_COMMAND_RUN 1001000,
       envAt 1 LINEFOLLOWERCONTROL_COMMAND_RUN 1001001,
       envAt 1 LINEFOLLOWERCONTROL_COMMAND_RUN 2000000] (taskStart 1) =
    [LINEFOLLOWERSTATUS_STATUS_ARMING, LINEFOLLOWERSTATUS_STATUS_ARMING,
     LINEFOLLOWERSTATUS_STATUS_ARMING, LINEFOLLOWERSTATUS_STATUS_RUN,
     LINEFOLLOWERSTATUS_STATUS_RUN] :=
  (C3_arming_delay_whole_seconds pidNone 1 (by norm_num)
    (envAt 1 LINEFOLLOWERCONTROL_COMMAND_RUN 1000) _ (taskStart 1) rfl rfl rfl rfl
    (by norm_num [taskStart, taskInit, settingsDelay])
    (by simp [envAt, settingsDelay])
    (by decide)).trans (by decide)

/-- A `STOP` or `IDLE` command processed while no arming is pending publishes `IDLE`. -/
theorem task_stop_not_arming {P : Type} (lib : PidLib P) (e : LoopEnv) (s : TaskState P)
    (ha : s.arming = false) (hc : s.controlupdated = true)
    (hcmd : e.LineFollowerControlGet.Command = LINEFOLLOWERCONTROL_COMMAND_STOP ∨
      e.LineFollowerControlGet.Command = LINEFOLLOWERCONTROL_COMMAND_IDLE) :
    publishedStatus lib e s = LINEFOLLOWERSTATUS_STATUS_IDLE := by
  obtain ⟨_, h2, _, _, h5, _⟩ := stepFrame_stepSettings_spec lib e s
  have h2' := h2.trans ha
  have h5' := h5.trans hc
  unfold publishedStatus lineFollowerTask
  generalize stepFrame lib e (stepSettings lib e s) = s2 at h2' h5'
  rcases hcmd with hcmd | hcmd <;> simp [stepControl, stepArming, h5', h2', hcmd]

/-- C19 (evaluation at the failing input): start delay 1 s; `RUN` is processed
at clock 1000 µs (published `ARMING`), `STOP` is processed at clock 2000 µs
(published `IDLE`), and the iteration at clock 1001001 µs, with no command
pending, publishes `RUN`: the arming left pending by `STOP` completes. -/
theorem C19_idle_turns_run_without_command :
    publishedStatus pidNone (envAt 1 LINEFOLLOWERCONTROL_COMMAND_RUN 1000) (taskStart 1) =
      LINEFOLLOWERSTATUS_STATUS_ARMING ∧
    publishedStatus pidNone (envAt 1 LINEFOLLOWERCONTROL_COMMAND_STOP 2000)
      (lfcontrolcb (lineFollowerTask pidNone (envAt 1 LINEFOLLOWERCONTROL_COMMAND_RUN 1000)
        (taskStart 1)).1) = LINEFOLLOWERSTATUS_STATUS_IDLE ∧
    (lineFollowerTask pidNone (envAt 1 LINEFOLLOWERCONTROL_COMMAND_STOP 2000)
      (lfcontrolcb (lineFollowerTask pidNone (envAt 1 LINEFOLLOWERCONTROL_COMMAND_RUN 1000)
        (taskStart 1)).1)).1.controlupdated = false ∧
    publishedStatus pidNone (envAt 1 LINEFOLLOWERCONTROL_COMMAND_STOP 1001001)
      (lineFollowerTask pidNone (envAt 1 LINEFOLLOWERCONTROL_COMMAND_STOP 2000)
        (lfcontrolcb (lineFollowerTask pidNone (envAt 1 LINEFOLLOWERCONTROL_COMMAND_RUN 1000)
          (taskStart 1)).1)).1 = LINEFOLLOWERSTATUS_STATUS_RUN := by
  decide

/-- The command and arming blocks leave the PID state and the yaw rate alone. -/
theorem tail_keeps_pid {P : Type} (e : LoopEnv) (s : TaskState P) :
    (stepArming e (stepControl e s)).linePid = s.linePid ∧
    (stepArming e (stepControl e s)).yawrate = s.yawrate ∧
    (stepArming e (stepControl e s)).status.yawrate = s.status.yawrate ∧
    (stepArming e (stepControl e s)).status.dT = s.status.dT := by
  have hc : (stepControl e s).linePid = s.linePid ∧ (stepControl e s).yawrate = s.yawrate ∧
      (stepControl e s).status.yawrate = s.status.yawrate ∧
      (stepControl e s).status.dT = s.status.dT := by
    unfold stepControl
    cases s.controlupdated
    · exact ⟨rfl, rfl, rfl, rfl⟩
    · cases hcmd : e.LineFollowerControlGet.Command <;>
        cases hcur : s.currentstatus <;> simp [hcmd, hcur]
  have ha : ∀ s' : TaskState P, (stepArming e s').linePid = s'.linePid ∧
      (stepArming e s').yawrate = s'.yawrate ∧
      (stepArming e s').status.yawrate = s'.status.yawrate ∧
      (stepArming e s').status.dT = s'.status.dT := by
    intro s'
    unfold stepArming
    split
    · split
      · exact ⟨rfl, rfl, rfl, rfl⟩
      · exact ⟨rfl, rfl, rfl, rfl⟩
    · exact ⟨rfl, rfl, rfl, rfl⟩
  obtain ⟨a1, a2, a3, a4⟩ := ha (stepControl e s)
  exact ⟨a1.trans hc.1, a2.trans hc.2.1, a3.trans hc.2.2.1, a4.trans hc.2.2.2⟩

/-- The frame block: with a new frame the PID is applied to the negated
position, without one nothing changes. -/
theorem stepFrame_spec {P : Type} (lib : PidLib P) (e : LoopEnv) (s : TaskState P) :
    (e.xQueueReceive = true →
      (stepFrame lib e s).linePid =
        (lib.pid_apply s.linePid (-e.LineSensorGet.value)
          e.PIOS_DELTATIME_GetAverageSeconds).1 ∧
      (stepFrame lib e s).yawrate =
        (lib.pid_apply s.linePid (-e.LineSensorGet.value)
          e.PIOS_DELTATIME_GetAverageSeconds).2 ∧
      (stepFrame lib e s).status.yawrate =
        (lib.pid_apply s.linePid (-e.LineSensorGet.value)
          e.PIOS_DELTATIME_GetAverageSeconds).2 ∧
      (stepFrame lib e s).status.dT = e.PIOS_DELTATIME_GetAverageSeconds) ∧
    (e.xQueueReceive = false →
      (stepFrame lib e s).linePid = s.linePid ∧
      (stepFrame lib e s).yawrate = s.yawrate ∧
      (stepFrame lib e s).status.yawrate = s.status.yawrate ∧
      (stepFrame lib e s).status.dT = s.status.dT) := by
  unfold stepFrame
  constructor
  · intro h
    simp [h]
  · intro h
    simp [h]

/-- C20 (counterexample): with a PID whose state is the running sum of the
errors, a new frame with position `-1` arriving while `Status` is `IDLE` (resp.
`ARMING`) moves the PID state from 0 to 1 and the published yaw rate from 0 to
1, while nothing is written to the actuation sink. -/
theorem C20_pid_runs_while_idle_counterexample :
    (taskQuiet LINEFOLLOWERSTATUS_STATUS_IDLE).linePid = 0 ∧
    (lineFollowerTask pidSum (envFrame (-1))
      (taskQuiet LINEFOLLOWERSTATUS_STATUS_IDLE)).1.linePid = 1 ∧
    (lineFollowerTask pidSum (envFrame (-1))
      (taskQuiet LINEFOLLOWERSTATUS_STATUS_IDLE)).1.status.yawrate = 1 ∧
    (lineFollowerTask pidSum (envFrame (-1))
      (taskQuiet LINEFOLLOWERSTATUS_STATUS_IDLE)).1.status.Status =
      LINEFOLLOWERSTATUS_STATUS_IDLE ∧
    (lineFollowerTask pidSum (envFrame (-1))
      (taskQuiet LINEFOLLOWERSTATUS_STATUS_IDLE)).2 = none ∧
    (lineFollowerTask pidSum (envFrame (-1))
      (taskQuiet LINEFOLLOWERSTATUS_STATUS_ARMING)).1.linePid = 1 ∧
    (lineFollowerTask pidSum (envFrame (-1))
      (taskQuiet LINEFOLLOWERSTATUS_STATUS_ARMING)).1.status.yawrate = 1 ∧
    (lineFollowerTask pidSum (envFrame (-1))
      (taskQuiet LINEFOLLOWERSTATUS_STATUS_ARMING)).1.status.Status =
      LINEFOLLOWERSTATUS_STATUS_ARMING := by
  decide

/-- C20 (amended): on every new sensor frame, whatever the `Status`, the
iteration applies `pid_apply` to the negated position and the measured `dT`,
stores the new PID state and publishes the result as `yawrate` (with `dT`);
in an iteration without a new frame the PID is not applied and the PID state
left by the settings block, the yaw rate and the published `yawrate` are
unchanged; the settings block touches the PID only when a settings update is
pending; the yaw rate reaches the actuation sink only when `Status` is `RUN`. -/
theorem C20_pid_on_every_frame {P : Type} (lib : PidLib P) (e : LoopEnv)
    (s : TaskState P) :
    (e.xQueueReceive = true →
      (lineFollowerTask lib e s).1.linePid =
        (lib.pid_apply (stepSettings lib e s).linePid (-e.LineSensorGet.value)
          e.PIOS_DELTATIME_GetAverageSeconds).1 ∧
      (lineFollowerTask lib e s).1.yawrate =
        (lib.pid_apply (stepSettings lib e s).linePid (-e.LineSensorGet.value)
          e.PIOS_DELTATIME_GetAverageSeconds).2 ∧
      (lineFollowerTask lib e s).1.status.yawrate =
        (lib.pid_apply (stepSettings lib e s).linePid (-e.LineSensorGet.value)
          e.PIOS_DELTATIME_GetAverageSeconds).2 ∧
      (lineFollowerTask lib e s).1.status.dT = e.PIOS_DELTATIME_GetAverageSeconds) ∧
    (e.xQueueReceive = false →
      (lineFollowerTask lib e s).1.linePid = (stepSettings lib e s).linePid ∧
      (lineFollowerTask lib e s).1.yawrate = s.yawrate ∧
      (lineFollowerTask lib e s).1.status.yawrate = s.status.yawrate) ∧
    (s.settingsupdated = false → (stepSettings lib e s).linePid = s.linePid) ∧
    ((lineFollowerTask lib e s).2 ≠ none →
      s.status.Status = LINEFOLLOWERSTATUS_STATUS_RUN) := by
  obtain ⟨k1, k2, k3, k4⟩ := tail_keeps_pid e (stepFrame lib e (stepSettings lib e s))
  obtain ⟨f1, f2⟩ := stepFrame_spec lib e (stepSettings lib e s)
  have hy : (stepSettings lib e s).yawrate = s.yawrate ∧
      (stepSettings lib e s).status.yawrate = s.status.yawrate := by
    unfold stepSettings
    split <;> exact ⟨rfl, rfl⟩
  refine ⟨fun h => ?_, fun h => ?_, fun h => ?_, fun h => ?_⟩
  · obtain ⟨g1, g2, g3, g4⟩ := f1 h
    exact ⟨k1.trans g1, k2.trans g2, k3.trans g3, k4.trans g4⟩
  · obtain ⟨g1, g2, g3, _⟩ := f2 h
    exact ⟨k1.trans g1, (k2.trans g2).trans hy.1, (k3.trans g3).trans hy.2⟩
  · unfold stepSettings
    rw [h]
    rfl
  · have hst := (stepFrame_stepSettings_spec lib e s).1
    by_contra hne
    apply h
    simp only [lineFollowerTask, stepActuate, hst, hne, if_false]

/-- Witness for C20 (amended): a frame with position `-1` arriving in the sample
state with `Status = RUN` and with `Status = IDLE`; an iteration without a frame. -/
theorem C20_pid_on_every_frame_witness :
    (envFrame (-1)).xQueueReceive = true ∧
    (lineFollowerTask pidSum (envFrame (-1))
      (taskQuiet LINEFOLLOWERSTATUS_STATUS_RUN)).1.status.yawrate =
      (pidSum.pid_apply
        (stepSettings pidSum (envFrame (-1)) (taskQuiet LINEFOLLOWERSTATUS_STATUS_RUN)).linePid
        (-(envFrame (-1)).LineSensorGet.value)
        (envFrame (-1)).PIOS_DELTATIME_GetAverageSeconds).2 ∧
    (envAt 1 LINEFOLLOWERCONTROL_COMMAND_IDLE 0).xQueueReceive = false ∧
    (lineFollowerTask pidSum (envAt 1 LINEFOLLOWERCONTROL_COMMAND_IDLE 0)
      (taskQuiet LINEFOLLOWERSTATUS_STATUS_RUN)).1.yawrate =
      (taskQuiet LINEFOLLOWERSTATUS_STATUS_RUN).yawrate :=
  ⟨rfl, ((C20_pid_on_every_frame pidSum (envFrame (-1))
      (taskQuiet LINEFOLLOWERSTATUS_STATUS_RUN)).1 rfl).2.2.1,
   rfl, ((C20_pid_on_every_frame pidSum (envAt 1 LINEFOLLOWERCONTROL_COMMAND_IDLE 0)
      (taskQuiet LINEFOLLOWERSTATUS_STATUS_RUN)).2.1 rfl).2.1⟩

end LineFollower
